import Mathlib

/-!
Shallow embedding of the Ionia ingestion API (src/app/main.py, src/app/auth.py).
Python dicts are modelled as association lists with in-place update (`setA`),
Python sets as lists with membership, and the external Google-Sheets adapter as
an outcome oracle (`SheetsOutcome`) whose results stand for the values the
adapter calls would return.  Every handler returns the new in-memory state, the
HTTP-level response, and the list of adapter calls it performed.
-/

namespace Ionia

/-- Association-list lookup: first binding wins, like a Python dict. -/
def lookupA {α : Type} : List (String × α) → String → Option α
  | [], _ => none
  | (k, v) :: rest, key => if k = key then some v else lookupA rest key

/-- Python dict assignment `m[key] = v`: replace the binding in place if the
key is present, otherwise append the new binding (insertion order). -/
def setA {α : Type} : List (String × α) → String → α → List (String × α)
  | [], key, v => [(key, v)]
  | (k, w) :: rest, key, v =>
      if k = key then (k, v) :: rest else (k, w) :: setA rest key v

/-- Python dict `m.pop(key, None)`: drop the first binding for the key. -/
def removeA {α : Type} : List (String × α) → String → List (String × α)
  | [], _ => []
  | (k, w) :: rest, key => if k = key then rest else (k, w) :: removeA rest key

/-- GAMES_COLUMNS from main.py: fixed column order of the games sheet. -/
def GAMES_COLUMNS : List String :=
  ["game_id", "date", "opposite_team", "game_number", "patch", "tr", "side",
   "win", "BB1", "BB2", "BB3", "BP1", "BP2", "BP3", "BB4", "BB5", "BP4",
   "BP5", "RB1", "RB2", "RB3", "RP1", "RP2", "RP3", "RB4", "RB5", "RP4",
   "RP5", "BT", "BJ", "BM", "BA", "BS", "RT", "RJ", "RM", "RA", "RS"]

/-- POSITION_COLUMNS from main.py. -/
def POSITION_COLUMNS : List String :=
  ["BT", "BJ", "BM", "BA", "BS", "RT", "RJ", "RM", "RA", "RS"]

/-- The DraftCache dataclass from main.py (one per-team session record). -/
structure DraftCache where
  game_id : String
  draft_count : Nat
  row_index : Option Nat
  row_data : List (String × String)
  game_number : Nat
  date : String
  deriving DecidableEq, Repr

/-- The three module-level mutable tables of main.py: `draft_cache`,
`game_counters` and `event_dedupe`. -/
structure ServerState where
  draft_cache : List (String × DraftCache)
  game_counters : List (String × List (String × Nat))
  event_dedupe : List String
  deriving DecidableEq, Repr

/-- Outcome oracle for the `GoogleSheetsWriter` adapter: `enabled` mirrors
`sheets_writer.enabled`; the result fields stand for what
`append_game_row` / `update_game_row` / `append_stream_event` would return
when the writer is enabled (when disabled those calls return `None`/`False`). -/
structure SheetsOutcome where
  enabled : Bool
  appendGameResult : Option Nat
  updateGameResult : Bool
  appendStreamResult : Option Nat
  deriving DecidableEq, Repr

/-- What `sheets_writer.append_game_row` returns: `None` when the writer is
disabled, otherwise the oracle's result. -/
def SheetsOutcome.appendGame (o : SheetsOutcome) : Option Nat :=
  if o.enabled then o.appendGameResult else none

/-- What `sheets_writer.update_game_row` returns: `False` when disabled. -/
def SheetsOutcome.updateGame (o : SheetsOutcome) : Bool :=
  if o.enabled then o.updateGameResult else false

/-- What `sheets_writer.append_stream_event` returns: `None` when disabled. -/
def SheetsOutcome.appendStream (o : SheetsOutcome) : Option Nat :=
  if o.enabled then o.appendStreamResult else none

/-- Responses a handler can produce (the JSON bodies that matter here).
`session` is GameSessionResponse, `gameId` is GameIdResponse, `ack` is Ack,
`error` is the `_error(status, message)` JSONResponse. -/
inductive Response where
  | session (game_id : Option String) (game_number : Option Nat) (message : Option String)
  | gameId (game_id : String)
  | ack
  | error (status : Nat) (message : String)
  deriving DecidableEq, Repr

/-- An adapter call made by a handler (a store write). -/
inductive Write where
  | appendGame (row : List String)
  | updateGame (idx : Nat) (row : List String)
  | appendStream (team : String) (kind : String) (payload : List (String × Option String))
  | appendDedupe (key : String)
  deriving DecidableEq, Repr

/-- `_draft_richness`: number of keys carrying a non-empty (truthy) value. -/
def draftRichness (draft : List (String × String)) : Nat :=
  (draft.filter (fun kv => kv.2 ≠ "")).length

/-- `_build_row`: project the row-field map onto the fixed column order. -/
def buildRow (row_data : List (String × String)) : List String :=
  GAMES_COLUMNS.map (fun column => (lookupA row_data column).getD "")

/-- `_update_row_data`: merge updates into the row-field map, keeping only
whitelisted columns, in the updates' iteration order. -/
def updateRowData (row_data : List (String × String))
    (updates : List (String × String)) : List (String × String) :=
  updates.foldl
    (fun acc kv => if kv.1 ∈ GAMES_COLUMNS then setA acc kv.1 kv.2 else acc)
    row_data

/-- Current value of the per-team per-date counter (0 when absent). -/
def counterVal (gc : List (String × List (String × Nat))) (team date : String) : Nat :=
  match lookupA gc team with
  | none => 0
  | some tc => (lookupA tc date).getD 0

/-- The mutation performed by `_get_game_counter`: `setdefault` the team map,
then bump the date entry. -/
def bumpCounter (gc : List (String × List (String × Nat))) (team date : String) :
    List (String × List (String × Nat)) :=
  let tc := (lookupA gc team).getD []
  setA gc team (setA tc date (counterVal gc team date + 1))

/-- `_dedupe_key(*parts)` for the three-part keys. -/
def dedupeKey3 (team kind gid : String) : String :=
  team ++ "|" ++ kind ++ "|" ++ gid

/-- `_dedupe_key(*parts)` for the four-part stream keys. -/
def dedupeKey4 (team kind gid role : String) : String :=
  team ++ "|" ++ kind ++ "|" ++ gid ++ "|" ++ role

/-- ChampSelectStartRequest from models.py. -/
structure ChampSelectStartRequest where
  date : String
  opposite_team : String
  patch : String
  tr : String
  side : String
  deriving DecidableEq, Repr

/-- DraftCompleteRequest from models.py. -/
structure DraftCompleteRequest where
  game_id : String
  draft : List (String × String)
  deriving DecidableEq, Repr

/-- GameStartRequest from models.py. -/
structure GameStartRequest where
  game_id : String
  positions : List (String × String)
  deriving DecidableEq, Repr

/-- GameFinishedRequest from models.py. -/
structure GameFinishedRequest where
  game_id : String
  win : String
  deriving DecidableEq, Repr

/-- StreamReadyRequest from models.py (`role` and `platform` hold the string
enum values). -/
structure StreamReadyRequest where
  game_id : String
  role : String
  vod_url : String
  platform : String
  player_id : Option String
  deriving DecidableEq, Repr

/-- Handler `client_heartbeat` (main.py): read-only probe of the session. -/
def client_heartbeat (s : ServerState) (team_id : String) :
    ServerState × Response × List Write :=
  match lookupA s.draft_cache team_id with
  | none => (s, .session none none (some "no ongoing game"), [])
  | some cache => (s, .session (some cache.game_id) (some cache.game_number) none, [])

/-- Handler `champ_select_start` (main.py).  `gid` stands for the fresh value
`_generate_game_id()` would produce. -/
def champ_select_start (s : ServerState) (team_id : String)
    (payload : ChampSelectStartRequest) (gid : String) (o : SheetsOutcome) :
    ServerState × Response × List Write :=
  match lookupA s.draft_cache team_id with
  | some cache =>
      (s, .session (some cache.game_id) (some cache.game_number) (some "game already active"), [])
  | none =>
      let game_number := counterVal s.game_counters team_id payload.date + 1
      let counters' := bumpCounter s.game_counters team_id payload.date
      let row_data : List (String × String) :=
        [("game_id", gid), ("date", payload.date),
         ("opposite_team", payload.opposite_team),
         ("game_number", toString game_number), ("patch", payload.patch),
         ("tr", payload.tr), ("side", payload.side)]
      let row_index := o.appendGame
      let writes := [Write.appendGame (buildRow row_data)]
      if o.enabled = true ∧ row_index = none then
        ({ s with game_counters := counters' },
         .error 502 "failed to write game row to sheets", writes)
      else
        ({ s with
            game_counters := counters'
            draft_cache := setA s.draft_cache team_id
              ⟨gid, 0, row_index, row_data, game_number, payload.date⟩ },
         .session (some gid) (some game_number) none, writes)

/-- Handler `draft_complete` (main.py).  The in-place mutation of
`cache.row_data` is written back into the session table on every path that
reaches it, including the 502 early returns. -/
def draft_complete (s : ServerState) (team_id : String)
    (payload : DraftCompleteRequest) (o : SheetsOutcome) :
    ServerState × Response × List Write :=
  match lookupA s.draft_cache team_id with
  | none => (s, .error 400 "no active game for team", [])
  | some cache =>
      if cache.game_id ≠ payload.game_id then
        (s, .error 400 "no active game for team", [])
      else
        let draft_count := draftRichness payload.draft
        if draft_count ≤ cache.draft_count then (s, .gameId cache.game_id, [])
        else
          let row_data := updateRowData cache.row_data payload.draft
          match cache.row_index with
          | some idx =>
              let updated := o.updateGame
              let writes := [Write.updateGame idx (buildRow row_data)]
              if o.enabled = true ∧ updated = false then
                ({ s with
                    draft_cache := setA s.draft_cache team_id
                      { cache with row_data := row_data } },
                 .error 502 "failed to update game row in sheets", writes)
              else
                ({ s with
                    draft_cache := setA s.draft_cache team_id
                      { cache with row_data := row_data, draft_count := draft_count } },
                 .gameId cache.game_id, writes)
          | none =>
              let newIdx := o.appendGame
              let writes := [Write.appendGame (buildRow row_data)]
              if o.enabled = true ∧ newIdx = none then
                ({ s with
                    draft_cache := setA s.draft_cache team_id
                      { cache with row_data := row_data, row_index := newIdx } },
                 .error 502 "failed to write game row to sheets", writes)
              else
                ({ s with
                    draft_cache := setA s.draft_cache team_id
                      { cache with
                          row_data := row_data
                          row_index := newIdx
                          draft_count := draft_count } },
                 .gameId cache.game_id, writes)

/-- Handler `game_start` (main.py). -/
def game_start (s : ServerState) (team_id : String) (payload : GameStartRequest)
    (o : SheetsOutcome) : ServerState × Response × List Write :=
  match lookupA s.draft_cache team_id with
  | none => (s, .error 400 "no active game for team", [])
  | some cache =>
      if cache.game_id ≠ payload.game_id then
        (s, .error 400 "no active game for team", [])
      else
        let key := dedupeKey3 team_id "game_start" payload.game_id
        if key ∈ s.event_dedupe then (s, .error 409 "duplicate event", [])
        else
          let positions := payload.positions.filter (fun kv => kv.1 ∈ POSITION_COLUMNS)
          let row_data := updateRowData cache.row_data positions
          let dedupeWrites : List Write :=
            if o.enabled then [Write.appendDedupe key] else []
          match cache.row_index with
          | some idx =>
              let updated := o.updateGame
              let writes := [Write.updateGame idx (buildRow row_data)]
              if o.enabled = true ∧ updated = false then
                ({ s with
                    draft_cache := setA s.draft_cache team_id
                      { cache with row_data := row_data } },
                 .error 502 "failed to update game row in sheets", writes)
              else
                ({ s with
                    draft_cache := setA s.draft_cache team_id
                      { cache with row_data := row_data }
                    event_dedupe := key :: s.event_dedupe },
                 .ack, writes ++ dedupeWrites)
          | none =>
              let newIdx := o.appendGame
              let writes := [Write.appendGame (buildRow row_data)]
              if o.enabled = true ∧ newIdx = none then
                ({ s with
                    draft_cache := setA s.draft_cache team_id
                      { cache with row_data := row_data, row_index := newIdx } },
                 .error 502 "failed to write game row to sheets", writes)
              else
                ({ s with
                    draft_cache := setA s.draft_cache team_id
                      { cache with row_data := row_data, row_index := newIdx }
                    event_dedupe := key :: s.event_dedupe },
                 .ack, writes ++ dedupeWrites)

/-- Handler `game_finished` (main.py).  Note: in the `row_index = none` branch
the fresh append result is bound to a local and never written back into the
(about-to-be-removed) cache, exactly as in the source. -/
def game_finished (s : ServerState) (team_id : String)
    (payload : GameFinishedRequest) (o : SheetsOutcome) :
    ServerState × Response × List Write :=
  match lookupA s.draft_cache team_id with
  | none => (s, .error 400 "no active game for team", [])
  | some cache =>
      if cache.game_id ≠ payload.game_id then
        (s, .error 400 "no active game for team", [])
      else
        let key := dedupeKey3 team_id "game_finished" payload.game_id
        if key ∈ s.event_dedupe then (s, .error 409 "duplicate event", [])
        else
          let row_data := updateRowData cache.row_data [("win", payload.win)]
          let dedupeWrites : List Write :=
            if o.enabled then [Write.appendDedupe key] else []
          match cache.row_index with
          | some idx =>
              let updated := o.updateGame
              let writes := [Write.updateGame idx (buildRow row_data)]
              if o.enabled = true ∧ updated = false then
                ({ s with
                    draft_cache := setA s.draft_cache team_id
                      { cache with row_data := row_data } },
                 .error 502 "failed to update game row in sheets", writes)
              else
                ({ s with
                    draft_cache := removeA s.draft_cache team_id
                    event_dedupe := key :: s.event_dedupe },
                 .ack, writes ++ dedupeWrites)
          | none =>
              let newIdx := o.appendGame
              let writes := [Write.appendGame (buildRow row_data)]
              if o.enabled = true ∧ newIdx = none then
                ({ s with
                    draft_cache := setA s.draft_cache team_id
                      { cache with row_data := row_data } },
                 .error 502 "failed to write game row to sheets", writes)
              else
                ({ s with
                    draft_cache := removeA s.draft_cache team_id
                    event_dedupe := key :: s.event_dedupe },
                 .ack, writes ++ dedupeWrites)

/-- Handler `stream_ready` (main.py): no session-tracker check at all. -/
def stream_ready (s : ServerState) (team_id : String)
    (payload : StreamReadyRequest) (o : SheetsOutcome) :
    ServerState × Response × List Write :=
  let key := dedupeKey4 team_id "stream_ready" payload.game_id payload.role
  if key ∈ s.event_dedupe then (s, .error 409 "duplicate event", [])
  else
    let streamPayload : List (String × Option String) :=
      [("game_id", some payload.game_id), ("role", some payload.role),
       ("vod_url", some payload.vod_url), ("platform", some payload.platform),
       ("player_id", payload.player_id)]
    let row_index := o.appendStream
    let writes := [Write.appendStream team_id "stream_ready" streamPayload]
    if o.enabled = true ∧ row_index = none then
      (s, .error 502 "failed to write stream row to sheets", writes)
    else
      ({ s with event_dedupe := key :: s.event_dedupe },
       .ack,
       writes ++ (if o.enabled then [Write.appendDedupe key] else []))

/-- One authenticated request to a team-scoped endpoint (team id already
resolved by the middleware; for `champSelect` the `gid` argument carries the
generated game id). -/
inductive Request where
  | heartbeat (team : String)
  | champSelect (team : String) (payload : ChampSelectStartRequest) (gid : String)
  | draftComplete (team : String) (payload : DraftCompleteRequest)
  | gameStart (team : String) (payload : GameStartRequest)
  | gameFinished (team : String) (payload : GameFinishedRequest)
  | streamReady (team : String) (payload : StreamReadyRequest)
  deriving DecidableEq, Repr

/-- Dispatch one request to its handler. -/
def step (s : ServerState) (r : Request) (o : SheetsOutcome) :
    ServerState × Response × List Write :=
  match r with
  | .heartbeat t => client_heartbeat s t
  | .champSelect t p gid => champ_select_start s t p gid o
  | .draftComplete t p => draft_complete s t p o
  | .gameStart t p => game_start s t p o
  | .gameFinished t p => game_finished s t p o
  | .streamReady t p => stream_ready s t p o

/-- Run a trace of requests, collecting the responses. -/
def runTrace (s : ServerState) : List (Request × SheetsOutcome) →
    ServerState × List Response
  | [] => (s, [])
  | (r, o) :: rest =>
      let out := step s r o
      let tail := runTrace out.1 rest
      (tail.1, out.2.1 :: tail.2)

/-- Run a trace of requests, keeping only the final state. -/
def run (s : ServerState) (trace : List (Request × SheetsOutcome)) : ServerState :=
  (runTrace s trace).1

/-- The AuthConfig dataclass from auth.py (dicts and sets modelled as lists). -/
structure AuthConfig where
  validation_keys : List (String × String)
  api_keys : List (String × String)
  validation_key_expires : List (String × Int)
  revoked_keys : List String
  used_keys : List String
  admin_bearer : Option String
  deriving DecidableEq, Repr

/-- `validate_activation_key` (auth.py).  `now` stands for the current epoch
seconds `int(datetime.now(timezone.utc).timestamp())`.  Returns the updated
config together with the `(team_id, error_message)` pair of the source.
Python's `if not team_id` also rejects a key mapped to the empty string. -/
def validate_activation_key (config : AuthConfig) (key : String) (now : Int) :
    AuthConfig × Option String × Option String :=
  if key ∈ config.used_keys then (config, none, some "validation key already used")
  else if key ∈ config.revoked_keys then (config, none, some "validation key revoked")
  else
    match lookupA config.validation_keys key with
    | none => (config, none, some "invalid or expired validation key")
    | some team_id =>
        if team_id = "" then (config, none, some "invalid or expired validation key")
        else
          match lookupA config.validation_key_expires key with
          | some expires_at =>
              if now ≥ expires_at then
                (config, none, some "validation key expired")
              else
                ({ config with
                    used_keys := key :: config.used_keys
                    validation_keys := removeA config.validation_keys key },
                 some team_id, none)
          | none =>
              ({ config with
                  used_keys := key :: config.used_keys
                  validation_keys := removeA config.validation_keys key },
               some team_id, none)

/-- Run a sequence of `validate_activation_key` calls, threading the config. -/
def runValidations (config : AuthConfig) : List (String × Int) → AuthConfig
  | [] => config
  | (key, now) :: rest => runValidations (validate_activation_key config key now).1 rest

/-- `resolve_team_id` (auth.py). -/
def resolve_team_id (config : AuthConfig) (bearer : String) : Option String :=
  lookupA config.api_keys bearer

/-- Outcome of `BearerAuthMiddleware.dispatch`: either the request is handed
to `call_next` (public / admin / team-scoped with the resolved team id), or it
is rejected with a status code and error body before any handler runs. -/
inductive DispatchResult where
  | forwardedPublic
  | forwardedAdmin
  | forwardedTeam (team_id : String) (bearer : String)
  | rejected (status : Nat) (error : String)
  deriving DecidableEq, Repr

/-- Python `str.startswith`, on the character list (kernel-computable). -/
def startsWithP (s pre : String) : Bool :=
  pre.toList.isPrefixOf s.toList

/-- Python slicing `s[n:]` by characters. -/
def dropP (s : String) (n : Nat) : String :=
  ⟨s.toList.drop n⟩

/-- Python `str.strip()`: remove leading and trailing whitespace. -/
def stripP (s : String) : String :=
  ⟨((s.toList.dropWhile Char.isWhitespace).reverse.dropWhile
      Char.isWhitespace).reverse⟩

/-- The public/docs path test at the top of `dispatch`. -/
def isPublicPath (public_paths : List String) (path : String) : Bool :=
  path ∈ public_paths || startsWithP path "/docs" || startsWithP path "/openapi"
    || startsWithP path "/redoc"

/-- `BearerAuthMiddleware.dispatch` (auth.py).  `auth_header` is the raw
Authorization header (`none` when absent; the source defaults it to `""`).
Since the header is checked to start with `"Bearer "`, the source's
`replace("Bearer ", "", 1)` removes exactly that 7-character leading text,
modelled as `String.drop 7`; `.strip()` is `String.trim`. -/
def dispatch (config : AuthConfig) (public_paths : List String) (path : String)
    (auth_header : Option String) : DispatchResult :=
  if isPublicPath public_paths path then .forwardedPublic
  else
    let header := auth_header.getD ""
    if ¬ startsWithP header "Bearer " then .rejected 401 "missing bearer token"
    else
      let bearer := stripP (dropP header 7)
      if bearer = "" then .rejected 401 "missing bearer token"
      else if startsWithP path "/admin/" then
        if (config.admin_bearer.getD "") = "" then
          .rejected 503 "admin bearer not configured"
        else if config.admin_bearer = some bearer then .forwardedAdmin
        else .rejected 401 "invalid admin bearer"
      else
        match resolve_team_id config bearer with
        | none => .rejected 401 "invalid bearer token"
        | some team_id =>
            if team_id = "" then .rejected 401 "invalid bearer token"
            else .forwardedTeam team_id bearer

/-! ### Association-list lemmas -/

theorem lookupA_setA_self {α : Type} (m : List (String × α)) (k : String) (v : α) :
    lookupA (setA m k v) k = some v := by
  induction m with
  | nil => simp [setA, lookupA]
  | cons a rest ih =>
      obtain ⟨ka, va⟩ := a
      by_cases h : ka = k <;> simp [setA, lookupA, h, ih]

theorem lookupA_setA_ne {α : Type} (m : List (String × α)) (k k' : String) (v : α)
    (h : k' ≠ k) : lookupA (setA m k v) k' = lookupA m k' := by
  induction m with
  | nil => simp [setA, lookupA, Ne.symm h]
  | cons a rest ih =>
      obtain ⟨ka, va⟩ := a
      by_cases hk : ka = k <;> by_cases hk' : ka = k' <;>
        simp_all [setA, lookupA, Ne.symm h]

theorem lookupA_eq_none_of_not_mem {α : Type} (m : List (String × α)) (k : String)
    (h : k ∉ m.map Prod.fst) : lookupA m k = none := by
  induction m with
  | nil => simp [lookupA]
  | cons a rest ih =>
      obtain ⟨ka, va⟩ := a
      simp only [List.map_cons, List.mem_cons] at h
      push_neg at h
      simp [lookupA, Ne.symm h.1, ih h.2]

theorem lookupA_removeA_ne {α : Type} (m : List (String × α)) (k k' : String)
    (h : k' ≠ k) : lookupA (removeA m k) k' = lookupA m k' := by
  induction m with
  | nil => simp [removeA]
  | cons a rest ih =>
      obtain ⟨ka, va⟩ := a
      by_cases hk : ka = k <;> by_cases hk' : ka = k' <;>
        simp_all [removeA, lookupA, Ne.symm h]

theorem lookupA_removeA_self {α : Type} (m : List (String × α)) (k : String)
    (hnd : (m.map Prod.fst).Nodup) : lookupA (removeA m k) k = none := by
  induction m with
  | nil => simp [removeA, lookupA]
  | cons a rest ih =>
      obtain ⟨ka, va⟩ := a
      simp only [List.map_cons, List.nodup_cons] at hnd
      by_cases hk : ka = k
      · subst hk
        simp only [removeA, if_pos rfl]
        exact lookupA_eq_none_of_not_mem rest ka hnd.1
      · simp [removeA, lookupA, hk, ih hnd.2]

/-! ### Counter lemmas -/

theorem counterVal_bumpCounter_self (gc : List (String × List (String × Nat)))
    (team date : String) :
    counterVal (bumpCounter gc team date) team date = counterVal gc team date + 1 := by
  unfold bumpCounter counterVal
  cases hg : lookupA gc team with
  | none => simp [hg, lookupA_setA_self]
  | some tc => simp [hg, lookupA_setA_self]

theorem counterVal_bumpCounter_ne (gc : List (String × List (String × Nat)))
    (team date team' date' : String) (h : ¬ (team' = team ∧ date' = date)) :
    counterVal (bumpCounter gc team date) team' date' = counterVal gc team' date' := by
  unfold bumpCounter counterVal
  by_cases ht : team' = team
  · subst ht
    have hd : date' ≠ date := fun hd => h ⟨rfl, hd⟩
    rw [lookupA_setA_self]
    cases hg : lookupA gc team' with
    | none => simp [hg, lookupA, Ne.symm hd]
    | some tc => simp [hg, lookupA_setA_ne _ _ _ _ hd]
  · rw [lookupA_setA_ne _ _ _ _ ht]

/-! ### Branch evaluation lemmas for the handlers -/

theorem hb_eq_none (s : ServerState) (team : String)
    (hl : lookupA s.draft_cache team = none) :
    client_heartbeat s team = (s, .session none none (some "no ongoing game"), []) := by
  unfold client_heartbeat
  simp [hl]

theorem hb_eq_some (s : ServerState) (team : String) (cache : DraftCache)
    (hl : lookupA s.draft_cache team = some cache) :
    client_heartbeat s team =
      (s, .session (some cache.game_id) (some cache.game_number) none, []) := by
  unfold client_heartbeat
  simp [hl]

theorem css_eq_active (s : ServerState) (team : String)
    (p : ChampSelectStartRequest) (gid : String) (o : SheetsOutcome)
    (cache : DraftCache) (hl : lookupA s.draft_cache team = some cache) :
    champ_select_start s team p gid o =
      (s, .session (some cache.game_id) (some cache.game_number)
            (some "game already active"), []) := by
  unfold champ_select_start
  simp [hl]

/-- The row-field map built by `champ_select_start`. -/
def cssRow (p : ChampSelectStartRequest) (gid : String) (n : Nat) :
    List (String × String) :=
  [("game_id", gid), ("date", p.date), ("opposite_team", p.opposite_team),
   ("game_number", toString n), ("patch", p.patch), ("tr", p.tr), ("side", p.side)]

theorem css_eq_fail (s : ServerState) (team : String)
    (p : ChampSelectStartRequest) (gid : String) (o : SheetsOutcome)
    (hl : lookupA s.draft_cache team = none)
    (hf : o.enabled = true ∧ o.appendGame = none) :
    champ_select_start s team p gid o =
      ({ s with game_counters := bumpCounter s.game_counters team p.date },
       .error 502 "failed to write game row to sheets",
       [Write.appendGame (buildRow (cssRow p gid (counterVal s.game_counters team p.date + 1)))]) := by
  unfold champ_select_start cssRow
  simp [hl, hf]

theorem css_eq_ok (s : ServerState) (team : String)
    (p : ChampSelectStartRequest) (gid : String) (o : SheetsOutcome)
    (hl : lookupA s.draft_cache team = none)
    (hf : ¬ (o.enabled = true ∧ o.appendGame = none)) :
    champ_select_start s team p gid o =
      ({ s with
          game_counters := bumpCounter s.game_counters team p.date
          draft_cache := setA s.draft_cache team
            ⟨gid, 0, o.appendGame,
             cssRow p gid (counterVal s.game_counters team p.date + 1),
             counterVal s.game_counters team p.date + 1, p.date⟩ },
       .session (some gid) (some (counterVal s.game_counters team p.date + 1)) none,
       [Write.appendGame (buildRow (cssRow p gid (counterVal s.game_counters team p.date + 1)))]) := by
  unfold champ_select_start cssRow
  simp [hl, hf]

theorem sr_eq_dup (s : ServerState) (team : String) (p : StreamReadyRequest)
    (o : SheetsOutcome)
    (hk : dedupeKey4 team "stream_ready" p.game_id p.role ∈ s.event_dedupe) :
    stream_ready s team p o = (s, .error 409 "duplicate event", []) := by
  unfold stream_ready
  simp [hk]

/-- The stream-event payload row written by `stream_ready`. -/
def srPayload (p : StreamReadyRequest) : List (String × Option String) :=
  [("game_id", some p.game_id), ("role", some p.role),
   ("vod_url", some p.vod_url), ("platform", some p.platform),
   ("player_id", p.player_id)]

theorem sr_eq_fail (s : ServerState) (team : String) (p : StreamReadyRequest)
    (o : SheetsOutcome)
    (hk : dedupeKey4 team "stream_ready" p.game_id p.role ∉ s.event_dedupe)
    (hf : o.enabled = true ∧ o.appendStream = none) :
    stream_ready s team p o =
      (s, .error 502 "failed to write stream row to sheets",
       [Write.appendStream team "stream_ready" (srPayload p)]) := by
  unfold stream_ready srPayload
  simp [hk, hf]

theorem sr_eq_ok (s : ServerState) (team : String) (p : StreamReadyRequest)
    (o : SheetsOutcome)
    (hk : dedupeKey4 team "stream_ready" p.game_id p.role ∉ s.event_dedupe)
    (hf : ¬ (o.enabled = true ∧ o.appendStream = none)) :
    stream_ready s team p o =
      ({ s with event_dedupe :=
          dedupeKey4 team "stream_ready" p.game_id p.role :: s.event_dedupe },
       .ack,
       Write.appendStream team "stream_ready" (srPayload p) ::
         (if o.enabled then [Write.appendDedupe
             (dedupeKey4 team "stream_ready" p.game_id p.role)] else [])) := by
  unfold stream_ready srPayload
  simp [hk, hf]

theorem dc_eq_none (s : ServerState) (team : String) (p : DraftCompleteRequest)
    (o : SheetsOutcome) (hl : lookupA s.draft_cache team = none) :
    draft_complete s team p o = (s, .error 400 "no active game for team", []) := by
  unfold draft_complete
  simp [hl]

theorem dc_eq_mismatch (s : ServerState) (team : String) (p : DraftCompleteRequest)
    (o : SheetsOutcome) (cache : DraftCache)
    (hl : lookupA s.draft_cache team = some cache)
    (hg : cache.game_id ≠ p.game_id) :
    draft_complete s team p o = (s, .error 400 "no active game for team", []) := by
  unfold draft_complete
  simp [hl, hg]

theorem dc_eq_stale (s : ServerState) (team : String) (p : DraftCompleteRequest)
    (o : SheetsOutcome) (cache : DraftCache)
    (hl : lookupA s.draft_cache team = some cache)
    (hg : cache.game_id = p.game_id)
    (hr : draftRichness p.draft ≤ cache.draft_count) :
    draft_complete s team p o = (s, .gameId cache.game_id, []) := by
  unfold draft_complete
  simp [hl, hg, hr]

theorem dc_eq_fail_some (s : ServerState) (team : String) (p : DraftCompleteRequest)
    (o : SheetsOutcome) (cache : DraftCache) (idx : Nat)
    (hl : lookupA s.draft_cache team = some cache)
    (hg : cache.game_id = p.game_id)
    (hr : ¬ draftRichness p.draft ≤ cache.draft_count)
    (hidx : cache.row_index = some idx)
    (hf : o.enabled = true ∧ o.updateGame = false) :
    draft_complete s team p o =
      ({ s with
          draft_cache := setA s.draft_cache team
            { cache with row_data := updateRowData cache.row_data p.draft } },
       .error 502 "failed to update game row in sheets",
       [Write.updateGame idx (buildRow (updateRowData cache.row_data p.draft))]) := by
  unfold draft_complete
  simp [hl, hg, hr, hidx, hf]

theorem dc_eq_ok_some (s : ServerState) (team : String) (p : DraftCompleteRequest)
    (o : SheetsOutcome) (cache : DraftCache) (idx : Nat)
    (hl : lookupA s.draft_cache team = some cache)
    (hg : cache.game_id = p.game_id)
    (hr : ¬ draftRichness p.draft ≤ cache.draft_count)
    (hidx : cache.row_index = some idx)
    (hf : ¬ (o.enabled = true ∧ o.updateGame = false)) :
    draft_complete s team p o =
      ({ s with
          draft_cache := setA s.draft_cache team
            { cache with
              row_data := updateRowData cache.row_data p.draft
              draft_count := draftRichness p.draft } },
       .gameId cache.game_id,
       [Write.updateGame idx (buildRow (updateRowData cache.row_data p.draft))]) := by
  unfold draft_complete
  simp [hl, hg, hr, hidx, hf]

theorem dc_eq_fail_none (s : ServerState) (team : String) (p : DraftCompleteRequest)
    (o : SheetsOutcome) (cache : DraftCache)
    (hl : lookupA s.draft_cache team = some cache)
    (hg : cache.game_id = p.game_id)
    (hr : ¬ draftRichness p.draft ≤ cache.draft_count)
    (hidx : cache.row_index = none)
    (hf : o.enabled = true ∧ o.appendGame = none) :
    draft_complete s team p o =
      ({ s with
          draft_cache := setA s.draft_cache team
            { cache with
              row_data := updateRowData cache.row_data p.draft
              row_index := none } },
       .error 502 "failed to write game row to sheets",
       [Write.appendGame (buildRow (updateRowData cache.row_data p.draft))]) := by
  unfold draft_complete
  simp [hl, hg, hr, hidx, hf, hf.2]

theorem dc_eq_ok_none (s : ServerState) (team : String) (p : DraftCompleteRequest)
    (o : SheetsOutcome) (cache : DraftCache)
    (hl : lookupA s.draft_cache team = some cache)
    (hg : cache.game_id = p.game_id)
    (hr : ¬ draftRichness p.draft ≤ cache.draft_count)
    (hidx : cache.row_index = none)
    (hf : ¬ (o.enabled = true ∧ o.appendGame = none)) :
    draft_complete s team p o =
      ({ s with
          draft_cache := setA s.draft_cache team
            { cache with
              row_data := updateRowData cache.row_data p.draft
              row_index := o.appendGame
              draft_count := draftRichness p.draft } },
       .gameId cache.game_id,
       [Write.appendGame (buildRow (updateRowData cache.row_data p.draft))]) := by
  unfold draft_complete
  simp [hl, hg, hr, hidx, hf]

/-- The positions map accepted by `game_start`: entries whose key is a
position column. -/
def gsPositions (p : GameStartRequest) : List (String × String) :=
  p.positions.filter (fun kv => kv.1 ∈ POSITION_COLUMNS)

theorem gs_eq_none (s : ServerState) (team : String) (p : GameStartRequest)
    (o : SheetsOutcome) (hl : lookupA s.draft_cache team = none) :
    game_start s team p o = (s, .error 400 "no active game for team", []) := by
  unfold game_start
  simp [hl]

theorem gs_eq_mismatch (s : ServerState) (team : String) (p : GameStartRequest)
    (o : SheetsOutcome) (cache : DraftCache)
    (hl : lookupA s.draft_cache team = some cache)
    (hg : cache.game_id ≠ p.game_id) :
    game_start s team p o = (s, .error 400 "no active game for team", []) := by
  unfold game_start
  simp [hl, hg]

theorem gs_eq_dup (s : ServerState) (team : String) (p : GameStartRequest)
    (o : SheetsOutcome) (cache : DraftCache)
    (hl : lookupA s.draft_cache team = some cache)
    (hg : cache.game_id = p.game_id)
    (hk : dedupeKey3 team "game_start" p.game_id ∈ s.event_dedupe) :
    game_start s team p o = (s, .error 409 "duplicate event", []) := by
  unfold game_start
  simp [hl, hg, hk]

theorem gs_eq_fail_some (s : ServerState) (team : String) (p : GameStartRequest)
    (o : SheetsOutcome) (cache : DraftCache) (idx : Nat)
    (hl : lookupA s.draft_cache team = some cache)
    (hg : cache.game_id = p.game_id)
    (hk : dedupeKey3 team "game_start" p.game_id ∉ s.event_dedupe)
    (hidx : cache.row_index = some idx)
    (hf : o.enabled = true ∧ o.updateGame = false) :
    game_start s team p o =
      ({ s with
          draft_cache := setA s.draft_cache team
            { cache with row_data := updateRowData cache.row_data (gsPositions p) } },
       .error 502 "failed to update game row in sheets",
       [Write.updateGame idx (buildRow (updateRowData cache.row_data (gsPositions p)))]) := by
  unfold game_start gsPositions
  simp [hl, hg, hk, hidx, hf]

theorem gs_eq_ok_some (s : ServerState) (team : String) (p : GameStartRequest)
    (o : SheetsOutcome) (cache : DraftCache) (idx : Nat)
    (hl : lookupA s.draft_cache team = some cache)
    (hg : cache.game_id = p.game_id)
    (hk : dedupeKey3 team "game_start" p.game_id ∉ s.event_dedupe)
    (hidx : cache.row_index = some idx)
    (hf : ¬ (o.enabled = true ∧ o.updateGame = false)) :
    game_start s team p o =
      ({ s with
          draft_cache := setA s.draft_cache team
            { cache with row_data := updateRowData cache.row_data (gsPositions p) }
          event_dedupe := dedupeKey3 team "game_start" p.game_id :: s.event_dedupe },
       .ack,
       Write.updateGame idx (buildRow (updateRowData cache.row_data (gsPositions p))) ::
         (if o.enabled then
            [Write.appendDedupe (dedupeKey3 team "game_start" p.game_id)] else [])) := by
  unfold game_start gsPositions
  simp [hl, hg, hk, hidx, hf]

theorem gs_eq_fail_none (s : ServerState) (team : String) (p : GameStartRequest)
    (o : SheetsOutcome) (cache : DraftCache)
    (hl : lookupA s.draft_cache team = some cache)
    (hg : cache.game_id = p.game_id)
    (hk : dedupeKey3 team "game_start" p.game_id ∉ s.event_dedupe)
    (hidx : cache.row_index = none)
    (hf : o.enabled = true ∧ o.appendGame = none) :
    game_start s team p o =
      ({ s with
          draft_cache := setA s.draft_cache team
            { cache with
              row_data := updateRowData cache.row_data (gsPositions p)
              row_index := none } },
       .error 502 "failed to write game row to sheets",
       [Write.appendGame (buildRow (updateRowData cache.row_data (gsPositions p)))]) := by
  unfold game_start gsPositions
  simp [hl, hg, hk, hidx, hf, hf.2]

theorem gs_eq_ok_none (s : ServerState) (team : String) (p : GameStartRequest)
    (o : SheetsOutcome) (cache : DraftCache)
    (hl : lookupA s.draft_cache team = some cache)
    (hg : cache.game_id = p.game_id)
    (hk : dedupeKey3 team "game_start" p.game_id ∉ s.event_dedupe)
    (hidx : cache.row_index = none)
    (hf : ¬ (o.enabled = true ∧ o.appendGame = none)) :
    game_start s team p o =
      ({ s with
          draft_cache := setA s.draft_cache team
            { cache with
                row_data := updateRowData cache.row_data (gsPositions p)
                row_index := o.appendGame }
          event_dedupe := dedupeKey3 team "game_start" p.game_id :: s.event_dedupe },
       .ack,
       Write.appendGame (buildRow (updateRowData cache.row_data (gsPositions p))) ::
         (if o.enabled then
            [Write.appendDedupe (dedupeKey3 team "game_start" p.game_id)] else [])) := by
  unfold game_start gsPositions
  simp [hl, hg, hk, hidx, hf]

theorem gf_eq_none (s : ServerState) (team : String) (p : GameFinishedRequest)
    (o : SheetsOutcome) (hl : lookupA s.draft_cache team = none) :
    game_finished s team p o = (s, .error 400 "no active game for team", []) := by
  unfold game_finished
  simp [hl]

theorem gf_eq_mismatch (s : ServerState) (team : String) (p : GameFinishedRequest)
    (o : SheetsOutcome) (cache : DraftCache)
    (hl : lookupA s.draft_cache team = some cache)
    (hg : cache.game_id ≠ p.game_id) :
    game_finished s team p o = (s, .error 400 "no active game for team", []) := by
  unfold game_finished
  simp [hl, hg]

theorem gf_eq_dup (s : ServerState) (team : String) (p : GameFinishedRequest)
    (o : SheetsOutcome) (cache : DraftCache)
    (hl : lookupA s.draft_cache team = some cache)
    (hg : cache.game_id = p.game_id)
    (hk : dedupeKey3 team "game_finished" p.game_id ∈ s.event_dedupe) :
    game_finished s team p o = (s, .error 409 "duplicate event", []) := by
  unfold game_finished
  simp [hl, hg, hk]

theorem gf_eq_fail_some (s : ServerState) (team : String) (p : GameFinishedRequest)
    (o : SheetsOutcome) (cache : DraftCache) (idx : Nat)
    (hl : lookupA s.draft_cache team = some cache)
    (hg : cache.game_id = p.game_id)
    (hk : dedupeKey3 team "game_finished" p.game_id ∉ s.event_dedupe)
    (hidx : cache.row_index = some idx)
    (hf : o.enabled = true ∧ o.updateGame = false) :
    game_finished s team p o =
      ({ s with
          draft_cache := setA s.draft_cache team
            { cache with row_data := updateRowData cache.row_data [("win", p.win)] } },
       .error 502 "failed to update game row in sheets",
       [Write.updateGame idx (buildRow (updateRowData cache.row_data [("win", p.win)]))]) := by
  unfold game_finished
  simp [hl, hg, hk, hidx, hf]

theorem gf_eq_ok_some (s : ServerState) (team : String) (p : GameFinishedRequest)
    (o : SheetsOutcome) (cache : DraftCache) (idx : Nat)
    (hl : lookupA s.draft_cache team = some cache)
    (hg : cache.game_id = p.game_id)
    (hk : dedupeKey3 team "game_finished" p.game_id ∉ s.event_dedupe)
    (hidx : cache.row_index = some idx)
    (hf : ¬ (o.enabled = true ∧ o.updateGame = false)) :
    game_finished s team p o =
      ({ s with
          draft_cache := removeA s.draft_cache team
          event_dedupe := dedupeKey3 team "game_finished" p.game_id :: s.event_dedupe },
       .ack,
       Write.updateGame idx (buildRow (updateRowData cache.row_data [("win", p.win)])) ::
         (if o.enabled then
            [Write.appendDedupe (dedupeKey3 team "game_finished" p.game_id)] else [])) := by
  unfold game_finished
  simp [hl, hg, hk, hidx, hf]

theorem gf_eq_fail_none (s : ServerState) (team : String) (p : GameFinishedRequest)
    (o : SheetsOutcome) (cache : DraftCache)
    (hl : lookupA s.draft_cache team = some cache)
    (hg : cache.game_id = p.game_id)
    (hk : dedupeKey3 team "game_finished" p.game_id ∉ s.event_dedupe)
    (hidx : cache.row_index = none)
    (hf : o.enabled = true ∧ o.appendGame = none) :
    game_finished s team p o =
      ({ s with
          draft_cache := setA s.draft_cache team
            { cache with row_data := updateRowData cache.row_data [("win", p.win)] } },
       .error 502 "failed to write game row to sheets",
       [Write.appendGame (buildRow (updateRowData cache.row_data [("win", p.win)]))]) := by
  unfold game_finished
  simp [hl, hg, hk, hidx, hf, hf.2]

theorem gf_eq_ok_none (s : ServerState) (team : String) (p : GameFinishedRequest)
    (o : SheetsOutcome) (cache : DraftCache)
    (hl : lookupA s.draft_cache team = some cache)
    (hg : cache.game_id = p.game_id)
    (hk : dedupeKey3 team "game_finished" p.game_id ∉ s.event_dedupe)
    (hidx : cache.row_index = none)
    (hf : ¬ (o.enabled = true ∧ o.appendGame = none)) :
    game_finished s team p o =
      ({ s with
          draft_cache := removeA s.draft_cache team
          event_dedupe := dedupeKey3 team "game_finished" p.game_id :: s.event_dedupe },
       .ack,
       Write.appendGame (buildRow (updateRowData cache.row_data [("win", p.win)])) ::
         (if o.enabled then
            [Write.appendDedupe (dedupeKey3 team "game_finished" p.game_id)] else [])) := by
  unfold game_finished
  simp [hl, hg, hk, hidx, hf]

/-! ### Per-handler state-projection lemmas -/

theorem hb_state (s : ServerState) (team : String) :
    (client_heartbeat s team).1 = s := by
  unfold client_heartbeat
  repeat' first | split | dsimp only

theorem css_dedupe (s : ServerState) (team : String) (p : ChampSelectStartRequest)
    (gid : String) (o : SheetsOutcome) :
    (champ_select_start s team p gid o).1.event_dedupe = s.event_dedupe := by
  unfold champ_select_start
  repeat' first | split | dsimp only

theorem dc_counters (s : ServerState) (team : String) (p : DraftCompleteRequest)
    (o : SheetsOutcome) :
    (draft_complete s team p o).1.game_counters = s.game_counters := by
  unfold draft_complete
  repeat' first | split | dsimp only

theorem dc_dedupe (s : ServerState) (team : String) (p : DraftCompleteRequest)
    (o : SheetsOutcome) :
    (draft_complete s team p o).1.event_dedupe = s.event_dedupe := by
  unfold draft_complete
  repeat' first | split | dsimp only

theorem gs_counters (s : ServerState) (team : String) (p : GameStartRequest)
    (o : SheetsOutcome) :
    (game_start s team p o).1.game_counters = s.game_counters := by
  unfold game_start
  repeat' first | split | dsimp only

theorem gs_dedupe_super (s : ServerState) (team : String) (p : GameStartRequest)
    (o : SheetsOutcome) :
    s.event_dedupe ⊆ (game_start s team p o).1.event_dedupe := by
  unfold game_start
  repeat' first | split | dsimp only
  all_goals first
    | exact fun x hx => hx
    | exact fun x hx => List.mem_cons_of_mem _ hx

theorem gf_counters (s : ServerState) (team : String) (p : GameFinishedRequest)
    (o : SheetsOutcome) :
    (game_finished s team p o).1.game_counters = s.game_counters := by
  unfold game_finished
  repeat' first | split | dsimp only

theorem gf_dedupe_super (s : ServerState) (team : String) (p : GameFinishedRequest)
    (o : SheetsOutcome) :
    s.event_dedupe ⊆ (game_finished s team p o).1.event_dedupe := by
  unfold game_finished
  repeat' first | split | dsimp only
  all_goals first
    | exact fun x hx => hx
    | exact fun x hx => List.mem_cons_of_mem _ hx

theorem sr_counters (s : ServerState) (team : String) (p : StreamReadyRequest)
    (o : SheetsOutcome) :
    (stream_ready s team p o).1.game_counters = s.game_counters := by
  unfold stream_ready
  repeat' first | split | dsimp only

theorem sr_dedupe_super (s : ServerState) (team : String) (p : StreamReadyRequest)
    (o : SheetsOutcome) :
    s.event_dedupe ⊆ (stream_ready s team p o).1.event_dedupe := by
  unfold stream_ready
  repeat' first | split | dsimp only
  all_goals first
    | exact fun x hx => hx
    | exact fun x hx => List.mem_cons_of_mem _ hx

/-- Every step only ever grows the dedupe set (nothing removes from it). -/
theorem step_dedupe_super (s : ServerState) (r : Request) (o : SheetsOutcome) :
    s.event_dedupe ⊆ (step s r o).1.event_dedupe := by
  cases r with
  | heartbeat t => rw [step, hb_state]; exact fun x hx => hx
  | champSelect t p gid => rw [step, css_dedupe]; exact fun x hx => hx
  | draftComplete t p => rw [step, dc_dedupe]; exact fun x hx => hx
  | gameStart t p => exact gs_dedupe_super s t p o
  | gameFinished t p => exact gf_dedupe_super s t p o
  | streamReady t p => exact sr_dedupe_super s t p o

/-- The dedupe set only grows along any trace of requests. -/
theorem run_dedupe_super (trace : List (Request × SheetsOutcome)) :
    ∀ s : ServerState, s.event_dedupe ⊆ (run s trace).event_dedupe := by
  induction trace with
  | nil => intro s; exact fun x hx => hx
  | cons q rest ih =>
      intro s
      have h1 := step_dedupe_super s q.1 q.2
      have h2 := ih (step s q.1 q.2).1
      unfold run runTrace
      exact fun x hx => h2 (h1 hx)

/-- On a successful (`ack`) `game_finished`, the team's session is removed. -/
theorem gf_ack_draft_cache (s : ServerState) (team : String)
    (p : GameFinishedRequest) (o : SheetsOutcome)
    (h : (game_finished s team p o).2.1 = Response.ack) :
    (game_finished s team p o).1.draft_cache = removeA s.draft_cache team := by
  revert h
  unfold game_finished
  repeat' first | split | dsimp only
  all_goals intro h
  all_goals simp_all

/-! ### Concrete fixtures used by the witnesses -/

/-- A session record as `champ_select_start` would create it. -/
def sampleCache : DraftCache :=
  ⟨"g1", 0, some 5,
   [("game_id", "g1"), ("date", "2026-01-07"), ("opposite_team", "T1"),
    ("game_number", "1"), ("patch", "14.1"), ("tr", "TR1"), ("side", "BLUE")],
   1, "2026-01-07"⟩

/-- A server state in which team KC has one active session. -/
def sampleActive : ServerState :=
  ⟨[("KC", sampleCache)], [("KC", [("2026-01-07", 1)])], []⟩

/-- Adapter oracle: enabled and every write succeeds. -/
def oracleOkAll : SheetsOutcome := ⟨true, some 5, true, some 7⟩

/-- Adapter oracle: enabled and every write fails after retries. -/
def oracleFailAll : SheetsOutcome := ⟨true, none, false, none⟩

/-- A champ-select payload. -/
def sampleChampReq : ChampSelectStartRequest := ⟨"2026-01-07", "T1", "14.1", "TR1", "BLUE"⟩

/-! ### Claims -/

/-- C5: while a team already has an active session, `champ_select_start`
creates no new session, returns the existing session's game id and game number
together with the "game already active" message, performs no store write, and
returns the in-memory state (session table, counters, dedupe set) exactly
unchanged — so repeated calls while the session is active are idempotent. -/
theorem claim_C5 (s : ServerState) (team : String) (p : ChampSelectStartRequest)
    (gid : String) (o : SheetsOutcome) (cache : DraftCache)
    (hl : lookupA s.draft_cache team = some cache) :
    champ_select_start s team p gid o =
      (s, .session (some cache.game_id) (some cache.game_number)
            (some "game already active"), []) :=
  css_eq_active s team p gid o cache hl

/-- Witness for C5 at a concrete state with an active session. -/
theorem claim_C5_witness :
    champ_select_start sampleActive "KC" sampleChampReq "g2" oracleOkAll =
      (sampleActive,
       .session (some "g1") (some 1) (some "game already active"), []) :=
  claim_C5 sampleActive "KC" sampleChampReq "g2" oracleOkAll sampleCache (by decide)

/-- C9: a successful `game_finished` removes the team's session (so a
subsequent heartbeat reports "no ongoing game"), and `client_heartbeat` is a
pure probe: it never changes the state, performs no store write, and never
returns an error, even when no session exists.  The `Nodup` hypothesis states
that the session table holds at most one binding per team, which Python dict
semantics guarantee. -/
theorem claim_C9 (s : ServerState) (team : String) (p : GameFinishedRequest)
    (o : SheetsOutcome) :
    ((game_finished s team p o).2.1 = .ack →
      (s.draft_cache.map Prod.fst).Nodup →
      lookupA (game_finished s team p o).1.draft_cache team = none ∧
      client_heartbeat (game_finished s team p o).1 team =
        ((game_finished s team p o).1,
         .session none none (some "no ongoing game"), [])) ∧
    ((client_heartbeat s team).1 = s ∧ (client_heartbeat s team).2.2 = [] ∧
      ∀ code msg, (client_heartbeat s team).2.1 ≠ .error code msg) := by
  constructor
  · intro hack hnd
    have hdc := gf_ack_draft_cache s team p o hack
    have hnone : lookupA (game_finished s team p o).1.draft_cache team = none := by
      rw [hdc]
      exact lookupA_removeA_self _ _ hnd
    exact ⟨hnone, hb_eq_none _ _ hnone⟩
  · cases hl : lookupA s.draft_cache team with
    | none =>
        rw [hb_eq_none s team hl]
        exact ⟨rfl, rfl, fun code msg => by simp⟩
    | some cache =>
        rw [hb_eq_some s team cache hl]
        exact ⟨rfl, rfl, fun code msg => by simp⟩

/-- Witness for C9: finishing the sample game leaves no session for KC. -/
theorem claim_C9_witness :
    lookupA (game_finished sampleActive "KC" ⟨"g1", "W"⟩ oracleOkAll).1.draft_cache
      "KC" = none :=
  ((claim_C9 sampleActive "KC" ⟨"g1", "W"⟩ oracleOkAll).1 (by decide) (by decide)).1

/-- C10: `stream_ready` never consults the session tracker: its response never
is the 400 "no active game for team" error, its response and writes depend on
the state only through the dedupe set, and whenever its dedupe key is fresh
and the store write does not fail it acknowledges and records the key — for
any `game_id`, matching session or not. -/
theorem claim_C10 (s : ServerState) (team : String) (p : StreamReadyRequest)
    (o : SheetsOutcome) :
    ((stream_ready s team p o).2.1 ≠ .error 400 "no active game for team") ∧
    (∀ s₂ : ServerState, s₂.event_dedupe = s.event_dedupe →
      (stream_ready s₂ team p o).2.1 = (stream_ready s team p o).2.1 ∧
      (stream_ready s₂ team p o).2.2 = (stream_ready s team p o).2.2) ∧
    (dedupeKey4 team "stream_ready" p.game_id p.role ∉ s.event_dedupe →
      ¬ (o.enabled = true ∧ o.appendStream = none) →
      (stream_ready s team p o).2.1 = .ack ∧
      (stream_ready s team p o).1 =
        { s with event_dedupe :=
            dedupeKey4 team "stream_ready" p.game_id p.role :: s.event_dedupe }) := by
  refine ⟨?_, ?_, ?_⟩
  · by_cases hk : dedupeKey4 team "stream_ready" p.game_id p.role ∈ s.event_dedupe
    · rw [sr_eq_dup s team p o hk]
      simp
    · by_cases hf : o.enabled = true ∧ o.appendStream = none
      · rw [sr_eq_fail s team p o hk hf]
        simp
      · rw [sr_eq_ok s team p o hk hf]
        simp
  · intro s₂ hd
    by_cases hk : dedupeKey4 team "stream_ready" p.game_id p.role ∈ s.event_dedupe
    · have hk₂ : dedupeKey4 team "stream_ready" p.game_id p.role ∈ s₂.event_dedupe := by
        rw [hd]; exact hk
      rw [sr_eq_dup s team p o hk, sr_eq_dup s₂ team p o hk₂]
      exact ⟨rfl, rfl⟩
    · have hk₂ : dedupeKey4 team "stream_ready" p.game_id p.role ∉ s₂.event_dedupe := by
        rw [hd]; exact hk
      by_cases hf : o.enabled = true ∧ o.appendStream = none
      · rw [sr_eq_fail s team p o hk hf, sr_eq_fail s₂ team p o hk₂ hf]
        exact ⟨rfl, rfl⟩
      · rw [sr_eq_ok s team p o hk hf, sr_eq_ok s₂ team p o hk₂ hf]
        exact ⟨rfl, rfl⟩
  · intro hk hf
    rw [sr_eq_ok s team p o hk hf]
    exact ⟨rfl, rfl⟩

/-- Witness for C10: a stream event for a game id with no matching session is
acknowledged. -/
theorem claim_C10_witness :
    (stream_ready sampleActive "KC" ⟨"gZ", "MID", "u", "server", none⟩
        oracleOkAll).2.1 = .ack :=
  ((claim_C10 sampleActive "KC" ⟨"gZ", "MID", "u", "server", none⟩
      oracleOkAll).2.2 (by decide) (by decide)).1

/-- C4: a `draft_complete` submission whose count of non-empty draft fields is
at most the session's recorded draft counter leaves the whole state unchanged
and performs no store write; and across any `draft_complete` call the team's
draft counter never decreases, changing only when the new payload's non-empty
field count strictly exceeds it (in which case it becomes that count). -/
theorem claim_C4 (s : ServerState) (team : String) (p : DraftCompleteRequest)
    (o : SheetsOutcome) (cache : DraftCache)
    (hl : lookupA s.draft_cache team = some cache) :
    (draftRichness p.draft ≤ cache.draft_count →
      (draft_complete s team p o).1 = s ∧ (draft_complete s team p o).2.2 = []) ∧
    (∀ cache', lookupA (draft_complete s team p o).1.draft_cache team = some cache' →
      cache.draft_count ≤ cache'.draft_count ∧
      (cache.draft_count < cache'.draft_count →
        cache'.draft_count = draftRichness p.draft ∧
        cache.draft_count < draftRichness p.draft)) := by
  constructor
  · intro hr
    by_cases hg : cache.game_id = p.game_id
    · rw [dc_eq_stale s team p o cache hl hg hr]
      exact ⟨rfl, rfl⟩
    · rw [dc_eq_mismatch s team p o cache hl hg]
      exact ⟨rfl, rfl⟩
  · intro cache' hc'
    by_cases hg : cache.game_id = p.game_id
    · by_cases hr : draftRichness p.draft ≤ cache.draft_count
      · rw [dc_eq_stale s team p o cache hl hg hr] at hc'
        simp only at hc'
        rw [hl] at hc'
        cases hc'
        exact ⟨le_refl _, fun hlt => absurd hlt (lt_irrefl _)⟩
      · cases hidx : cache.row_index with
        | some idx =>
            by_cases hf : o.enabled = true ∧ o.updateGame = false
            · rw [dc_eq_fail_some s team p o cache idx hl hg hr hidx hf] at hc'
              simp only [lookupA_setA_self] at hc'
              cases hc'
              exact ⟨le_refl _, fun hlt => absurd hlt (lt_irrefl _)⟩
            · rw [dc_eq_ok_some s team p o cache idx hl hg hr hidx hf] at hc'
              simp only [lookupA_setA_self] at hc'
              cases hc'
              have hlt : cache.draft_count < draftRichness p.draft := lt_of_not_le hr
              exact ⟨le_of_lt hlt, fun _ => ⟨rfl, hlt⟩⟩
        | none =>
            by_cases hf : o.enabled = true ∧ o.appendGame = none
            · rw [dc_eq_fail_none s team p o cache hl hg hr hidx hf] at hc'
              simp only [lookupA_setA_self] at hc'
              cases hc'
              exact ⟨le_refl _, fun hlt => absurd hlt (lt_irrefl _)⟩
            · rw [dc_eq_ok_none s team p o cache hl hg hr hidx hf] at hc'
              simp only [lookupA_setA_self] at hc'
              cases hc'
              have hlt : cache.draft_count < draftRichness p.draft := lt_of_not_le hr
              exact ⟨le_of_lt hlt, fun _ => ⟨rfl, hlt⟩⟩
    · rw [dc_eq_mismatch s team p o cache hl hg] at hc'
      simp only at hc'
      rw [hl] at hc'
      cases hc'
      exact ⟨le_refl _, fun hlt => absurd hlt (lt_irrefl _)⟩

/-- Witness for C4: re-submitting the same one-field draft (richness 1, equal
to the recorded counter) changes nothing and writes nothing. -/
theorem claim_C4_witness :
    (draft_complete
        ⟨[("KC", { sampleCache with draft_count := 1 })],
         [("KC", [("2026-01-07", 1)])], []⟩
        "KC" ⟨"g1", [("BP1", "Maokai")]⟩ oracleOkAll).1 =
      ⟨[("KC", { sampleCache with draft_count := 1 })],
       [("KC", [("2026-01-07", 1)])], []⟩ :=
  ((claim_C4 ⟨[("KC", { sampleCache with draft_count := 1 })],
      [("KC", [("2026-01-07", 1)])], []⟩
      "KC" ⟨"g1", [("BP1", "Maokai")]⟩ oracleOkAll
      { sampleCache with draft_count := 1 } (by decide)).1 (by decide)).1

/-! ### Branch evaluation lemmas for the credential store -/

theorem va_eq_used (config : AuthConfig) (key : String) (now : Int)
    (hu : key ∈ config.used_keys) :
    validate_activation_key config key now =
      (config, none, some "validation key already used") := by
  unfold validate_activation_key
  simp [hu]

theorem va_eq_revoked (config : AuthConfig) (key : String) (now : Int)
    (hu : key ∉ config.used_keys) (hrv : key ∈ config.revoked_keys) :
    validate_activation_key config key now =
      (config, none, some "validation key revoked") := by
  unfold validate_activation_key
  simp [hu, hrv]

theorem va_eq_absent (config : AuthConfig) (key : String) (now : Int)
    (hu : key ∉ config.used_keys) (hrv : key ∉ config.revoked_keys)
    (hv : lookupA config.validation_keys key = none) :
    validate_activation_key config key now =
      (config, none, some "invalid or expired validation key") := by
  unfold validate_activation_key
  simp [hu, hrv, hv]

theorem va_eq_empty (config : AuthConfig) (key : String) (now : Int)
    (hu : key ∉ config.used_keys) (hrv : key ∉ config.revoked_keys)
    (hv : lookupA config.validation_keys key = some "") :
    validate_activation_key config key now =
      (config, none, some "invalid or expired validation key") := by
  unfold validate_activation_key
  simp [hu, hrv, hv]

theorem va_eq_expired (config : AuthConfig) (key : String) (now : Int)
    (team : String) (e : Int)
    (hu : key ∉ config.used_keys) (hrv : key ∉ config.revoked_keys)
    (hv : lookupA config.validation_keys key = some team) (ht : team ≠ "")
    (he : lookupA config.validation_key_expires key = some e) (hn : now ≥ e) :
    validate_activation_key config key now =
      (config, none, some "validation key expired") := by
  unfold validate_activation_key
  simp [hu, hrv, hv, ht, he, hn]

theorem va_eq_ok_exp (config : AuthConfig) (key : String) (now : Int)
    (team : String) (e : Int)
    (hu : key ∉ config.used_keys) (hrv : key ∉ config.revoked_keys)
    (hv : lookupA config.validation_keys key = some team) (ht : team ≠ "")
    (he : lookupA config.validation_key_expires key = some e) (hn : ¬ now ≥ e) :
    validate_activation_key config key now =
      ({ config with
          used_keys := key :: config.used_keys
          validation_keys := removeA config.validation_keys key },
       some team, none) := by
  unfold validate_activation_key
  simp [hu, hrv, hv, ht, he, hn]

theorem va_eq_ok_noexp (config : AuthConfig) (key : String) (now : Int)
    (team : String)
    (hu : key ∉ config.used_keys) (hrv : key ∉ config.revoked_keys)
    (hv : lookupA config.validation_keys key = some team) (ht : team ≠ "")
    (he : lookupA config.validation_key_expires key = none) :
    validate_activation_key config key now =
      ({ config with
          used_keys := key :: config.used_keys
          validation_keys := removeA config.validation_keys key },
       some team, none) := by
  unfold validate_activation_key
  simp [hu, hrv, hv, ht, he]

/-- `validate_activation_key` never shrinks the used set. -/
theorem va_used_super (config : AuthConfig) (key : String) (now : Int) :
    config.used_keys ⊆ (validate_activation_key config key now).1.used_keys := by
  unfold validate_activation_key
  repeat' first | split | dsimp only
  all_goals first
    | exact fun x hx => hx
    | exact fun x hx => List.mem_cons_of_mem _ hx

/-- The used set never shrinks along a sequence of validation calls. -/
theorem runValidations_used_super (calls : List (String × Int)) :
    ∀ config : AuthConfig,
      config.used_keys ⊆ (runValidations config calls).used_keys := by
  induction calls with
  | nil => intro config; exact fun x hx => hx
  | cons c rest ih =>
      intro config
      have h1 := va_used_super config c.1 c.2
      have h2 := ih (validate_activation_key config c.1 c.2).1
      unfold runValidations
      exact fun x hx => h2 (h1 hx)

/-- When `validate_activation_key` returns a team id, the config it returns is
the input with the key added to the used set and removed from the active
mapping. -/
theorem va_some_state (config : AuthConfig) (key : String) (now : Int)
    (team : String)
    (h : (validate_activation_key config key now).2.1 = some team) :
    (validate_activation_key config key now).1 =
      { config with
          used_keys := key :: config.used_keys
          validation_keys := removeA config.validation_keys key } := by
  revert h
  unfold validate_activation_key
  repeat' first | split | dsimp only
  all_goals intro h
  all_goals simp_all

/-! ### Claims about the credential store and the authorization gate -/

/-- Fixture: an auth config with one active key "K" for team KC expiring at
epoch second 100, and one issued bearer. -/
def sampleAuth : AuthConfig :=
  ⟨[("K", "KC")], [("b1", "KC")], [("K", 100)], [], [], none⟩

/-- Counterexample to C2 as stated: the claim predicates rejection with
"expired" on the expiry timestamp being at/after the current time.  Here the
key's expiry (100) is at/after the current time (50), yet validation
succeeds and returns the owning team id: the code rejects only when the
current time is at/after the expiry. -/
theorem claim_C2_counterexample :
    (50 : Int) ≤ 100 ∧
    validate_activation_key sampleAuth "K" 50 =
      (⟨[], [("b1", "KC")], [("K", 100)], [], ["K"], none⟩, some "KC", none) :=
  ⟨by decide, by decide⟩

/-- C2 (amended): `validate_activation_key` rejects with exactly the first
applicable reason in priority order — used ("already used"), then revoked
("revoked"), then absent from the active mapping or mapped to an empty team id
("invalid or expired"), then carrying an expiry timestamp at/before the
current time ("expired") — and otherwise succeeds, returning the owning
(non-empty) team id. -/
theorem claim_C2 (config : AuthConfig) (key : String) (now : Int) :
    ((validate_activation_key config key now).2.2 = some "validation key already used" ↔
      key ∈ config.used_keys) ∧
    ((validate_activation_key config key now).2.2 = some "validation key revoked" ↔
      key ∉ config.used_keys ∧ key ∈ config.revoked_keys) ∧
    ((validate_activation_key config key now).2.2 = some "invalid or expired validation key" ↔
      key ∉ config.used_keys ∧ key ∉ config.revoked_keys ∧
      ∀ t, lookupA config.validation_keys key = some t → t = "") ∧
    ((validate_activation_key config key now).2.2 = some "validation key expired" ↔
      key ∉ config.used_keys ∧ key ∉ config.revoked_keys ∧
      ∃ t, lookupA config.validation_keys key = some t ∧ t ≠ "" ∧
        ∃ e, lookupA config.validation_key_expires key = some e ∧ e ≤ now) ∧
    (∀ t, (validate_activation_key config key now).2.1 = some t ↔
      (key ∉ config.used_keys ∧ key ∉ config.revoked_keys ∧
       lookupA config.validation_keys key = some t ∧ t ≠ "" ∧
       ∀ e, lookupA config.validation_key_expires key = some e → now < e)) := by
  by_cases hu : key ∈ config.used_keys
  · rw [va_eq_used config key now hu]
    exact ⟨by simp [hu], by simp [hu], by simp [hu], by simp [hu], by simp [hu]⟩
  · by_cases hrv : key ∈ config.revoked_keys
    · rw [va_eq_revoked config key now hu hrv]
      exact ⟨by simp [hu], by simp [hu, hrv], by simp [hrv], by simp [hrv], by simp [hrv]⟩
    · cases hv : lookupA config.validation_keys key with
      | none =>
          rw [va_eq_absent config key now hu hrv hv]
          exact ⟨by simp [hu], by simp [hrv], by simp [hu, hrv], by simp, by simp⟩
      | some team =>
          by_cases ht : team = ""
          · subst ht
            rw [va_eq_empty config key now hu hrv hv]
            refine ⟨by simp [hu], by simp [hrv], ?_, by simp, by simp⟩
            constructor
            · intro _
              exact ⟨hu, hrv, fun t hvt => (Option.some.inj hvt).symm⟩
            · intro _
              rfl
          · cases he : lookupA config.validation_key_expires key with
            | none =>
                rw [va_eq_ok_noexp config key now team hu hrv hv ht he]
                refine ⟨by simp [hu], by simp [hu, hrv], ?_, ?_, ?_⟩
                · constructor
                  · intro hfalse
                    simp at hfalse
                  · rintro ⟨-, -, hall⟩
                    exact absurd (hall team rfl) ht
                · constructor
                  · intro hfalse
                    simp at hfalse
                  · rintro ⟨-, -, t, -, -, e', hee, -⟩
                    exact Option.noConfusion hee
                · intro t
                  constructor
                  · intro hsome
                    cases Option.some.inj hsome
                    exact ⟨hu, hrv, rfl, ht, fun e' hee => Option.noConfusion hee⟩
                  · rintro ⟨-, -, hvt, -, -⟩
                    exact hvt
            | some e =>
                by_cases hn : now ≥ e
                · rw [va_eq_expired config key now team e hu hrv hv ht he hn]
                  refine ⟨by simp [hu], by simp [hu, hrv], ?_, ?_, ?_⟩
                  · constructor
                    · intro hfalse
                      simp at hfalse
                    · rintro ⟨-, -, hall⟩
                      exact absurd (hall team rfl) ht
                  · constructor
                    · intro _
                      exact ⟨hu, hrv, team, rfl, ht, e, rfl, hn⟩
                    · intro _
                      rfl
                  · intro t
                    constructor
                    · intro hfalse
                      exact Option.noConfusion hfalse
                    · rintro ⟨-, -, -, -, hall⟩
                      have := hall e rfl
                      omega
                · rw [va_eq_ok_exp config key now team e hu hrv hv ht he hn]
                  refine ⟨by simp [hu], by simp [hu, hrv], ?_, ?_, ?_⟩
                  · constructor
                    · intro hfalse
                      simp at hfalse
                    · rintro ⟨-, -, hall⟩
                      exact absurd (hall team rfl) ht
                  · constructor
                    · intro hfalse
                      simp at hfalse
                    · rintro ⟨-, -, t, -, -, e', hee, hle⟩
                      cases Option.some.inj hee
                      omega
                  · intro t
                    constructor
                    · intro hsome
                      cases Option.some.inj hsome
                      exact ⟨hu, hrv, rfl, ht,
                        fun e' hee => by cases Option.some.inj hee; omega⟩
                    · rintro ⟨-, -, hvt, -, -⟩
                      exact hvt

/-- Witness for C2 at a concrete config: a key whose expiry (100) is at or
before the current time (200) is rejected as expired. -/
theorem claim_C2_witness :
    (validate_activation_key ⟨[("K", "KC")], [], [("K", 100)], [], [], none⟩
        "K" 200).2.2 = some "validation key expired" :=
  ((claim_C2 ⟨[("K", "KC")], [], [("K", 100)], [], [], none⟩ "K" 200).2.2.2.1).mpr
    ⟨by decide, by decide, "KC", by decide, by decide, 100, by decide, by decide⟩

/-- C8: a successful validation moves the key into the used set and removes it
from the active mapping in the same step (the `Nodup` hypothesis is the
dict guarantee of one binding per key), and afterwards every further call with
the same key — regardless of any other validation calls in between — fails
with "already used". -/
theorem claim_C8 (config : AuthConfig) (key : String) (now : Int) (team : String)
    (h : (validate_activation_key config key now).2.1 = some team) :
    key ∈ (validate_activation_key config key now).1.used_keys ∧
    ((config.validation_keys.map Prod.fst).Nodup →
      lookupA (validate_activation_key config key now).1.validation_keys key = none) ∧
    (∀ (calls : List (String × Int)) (now2 : Int),
      (validate_activation_key
        (runValidations (validate_activation_key config key now).1 calls)
        key now2).2.1 = none ∧
      (validate_activation_key
        (runValidations (validate_activation_key config key now).1 calls)
        key now2).2.2 = some "validation key already used") := by
  have hs := va_some_state config key now team h
  refine ⟨?_, ?_, ?_⟩
  · rw [hs]
    exact List.mem_cons_self _ _
  · intro hnd
    rw [hs]
    exact lookupA_removeA_self _ _ hnd
  · intro calls now2
    have hk : key ∈
        (runValidations (validate_activation_key config key now).1 calls).used_keys := by
      apply runValidations_used_super
      rw [hs]
      exact List.mem_cons_self _ _
    rw [va_eq_used _ key now2 hk]
    exact ⟨rfl, rfl⟩

/-- Witness for C8: after "K" is validated once, a later call — even after an
intervening call — fails with "already used". -/
theorem claim_C8_witness :
    (validate_activation_key
      (runValidations (validate_activation_key sampleAuth "K" 0).1 [("K", 3)])
      "K" 7).2.2 = some "validation key already used" :=
  ((claim_C8 sampleAuth "K" 0 "KC" (by decide)).2.2 [("K", 3)] 7).2

/-- C7: on a non-public, non-admin path, the middleware rejects with 401
before the handler runs — body "missing bearer token" when the header is
absent, without the Bearer scheme, or with an empty token, and "invalid bearer
token" when the token resolves to no (or an empty) team id.  A rejection means
`call_next` is never invoked, so no handler logic runs and no in-memory state
can be mutated by such a request. -/
theorem claim_C7 (config : AuthConfig) (public_paths : List String) (path : String)
    (header : Option String)
    (hpub : isPublicPath public_paths path = false)
    (hadm : startsWithP path "/admin/" = false) :
    (startsWithP (header.getD "") "Bearer " = false →
      dispatch config public_paths path header = .rejected 401 "missing bearer token") ∧
    (stripP (dropP (header.getD "") 7) = "" →
      dispatch config public_paths path header = .rejected 401 "missing bearer token") ∧
    (startsWithP (header.getD "") "Bearer " = true →
      stripP (dropP (header.getD "") 7) ≠ "" →
      (∀ t, lookupA config.api_keys (stripP (dropP (header.getD "") 7)) = some t → t = "") →
      dispatch config public_paths path header = .rejected 401 "invalid bearer token") := by
  refine ⟨?_, ?_, ?_⟩
  · intro h1
    unfold dispatch
    simp [hpub, h1]
  · intro h2
    by_cases hs : startsWithP (header.getD "") "Bearer " = true
    · unfold dispatch
      simp [hpub, hs, h2]
    · unfold dispatch
      simp [hpub, hs]
  · intro hs hb hres
    unfold dispatch
    cases hv : lookupA config.api_keys (stripP (dropP (header.getD "") 7)) with
    | none => simp [hpub, hs, hb, hadm, resolve_team_id, hv]
    | some t =>
        have ht := hres t hv
        subst ht
        simp [hpub, hs, hb, hadm, resolve_team_id, hv]

/-- Witness for C7: a header without the Bearer scheme is rejected with
"missing bearer token". -/
theorem claim_C7_witness :
    dispatch sampleAuth ["/activate"] "/events/game_start" (some "token b1") =
      .rejected 401 "missing bearer token" :=
  (claim_C7 sampleAuth ["/activate"] "/events/game_start" (some "token b1")
    (by decide) (by decide)).1 (by decide)

/-- Counterexample to C1 as stated: with an empty initial state, a
`champ_select_start` whose store write fails returns 502 but has already
incremented the per-team/per-date sequence counter, so the state differs from
the initial one and an identical retry is numbered 2 instead of 1. -/
theorem claim_C1_counterexample :
    (champ_select_start (⟨[], [], []⟩ : ServerState) "KC" sampleChampReq "g1"
        oracleFailAll).2.1 = .error 502 "failed to write game row to sheets" ∧
    (champ_select_start (⟨[], [], []⟩ : ServerState) "KC" sampleChampReq "g1"
        oracleFailAll).1 ≠ (⟨[], [], []⟩ : ServerState) ∧
    (champ_select_start
        (champ_select_start (⟨[], [], []⟩ : ServerState) "KC" sampleChampReq "g1"
          oracleFailAll).1
        "KC" sampleChampReq "g2" oracleOkAll).2.1 = .session (some "g2") (some 2) none := by
  refine ⟨by decide, by decide, by decide⟩

/-- C1 (amended): when a critical-path handler returns a 502 because the
external store write failed, the dedupe set, the sequence counters (except the
one `champ_select_start` has already bumped), the session-table membership and
every session's game id, draft counter, row locator, game number and date are
exactly as before the request; what does survive the failure is the counter
bump in `champ_select_start` and the in-place merge of the payload's
whitelisted fields into the session's row-field map in `draft_complete`,
`game_start` and `game_finished` (`stream_ready` leaves the state fully
unchanged). -/
theorem claim_C1 (s : ServerState) (o : SheetsOutcome) :
    (∀ (team : String) (p : ChampSelectStartRequest) (gid msg : String),
      (champ_select_start s team p gid o).2.1 = .error 502 msg →
      (champ_select_start s team p gid o).1 =
        { s with game_counters := bumpCounter s.game_counters team p.date }) ∧
    (∀ (team : String) (p : DraftCompleteRequest) (msg : String),
      (draft_complete s team p o).2.1 = .error 502 msg →
      ∃ cache, lookupA s.draft_cache team = some cache ∧
        (draft_complete s team p o).1 =
          { s with
              draft_cache := setA s.draft_cache team
                { cache with row_data := updateRowData cache.row_data p.draft } }) ∧
    (∀ (team : String) (p : GameStartRequest) (msg : String),
      (game_start s team p o).2.1 = .error 502 msg →
      ∃ cache, lookupA s.draft_cache team = some cache ∧
        (game_start s team p o).1 =
          { s with
              draft_cache := setA s.draft_cache team
                { cache with
                  row_data := updateRowData cache.row_data (gsPositions p) } }) ∧
    (∀ (team : String) (p : GameFinishedRequest) (msg : String),
      (game_finished s team p o).2.1 = .error 502 msg →
      ∃ cache, lookupA s.draft_cache team = some cache ∧
        (game_finished s team p o).1 =
          { s with
              draft_cache := setA s.draft_cache team
                { cache with
                  row_data := updateRowData cache.row_data [("win", p.win)] } }) ∧
    (∀ (team : String) (p : StreamReadyRequest) (msg : String),
      (stream_ready s team p o).2.1 = .error 502 msg →
      (stream_ready s team p o).1 = s) := by
  refine ⟨?_, ?_, ?_, ?_, ?_⟩
  · intro team p gid msg h
    cases hl : lookupA s.draft_cache team with
    | some cache =>
        rw [css_eq_active s team p gid o cache hl] at h
        simp at h
    | none =>
        by_cases hf : o.enabled = true ∧ o.appendGame = none
        · rw [css_eq_fail s team p gid o hl hf]
        · rw [css_eq_ok s team p gid o hl hf] at h
          simp at h
  · intro team p msg h
    cases hl : lookupA s.draft_cache team with
    | none =>
        rw [dc_eq_none s team p o hl] at h
        simp at h
    | some cache =>
        refine ⟨cache, rfl, ?_⟩
        by_cases hg : cache.game_id = p.game_id
        · by_cases hr : draftRichness p.draft ≤ cache.draft_count
          · rw [dc_eq_stale s team p o cache hl hg hr] at h
            simp at h
          · cases hidx : cache.row_index with
            | some idx =>
                by_cases hf : o.enabled = true ∧ o.updateGame = false
                · rw [dc_eq_fail_some s team p o cache idx hl hg hr hidx hf]
                  simp [hidx]
                · rw [dc_eq_ok_some s team p o cache idx hl hg hr hidx hf] at h
                  simp at h
            | none =>
                by_cases hf : o.enabled = true ∧ o.appendGame = none
                · rw [dc_eq_fail_none s team p o cache hl hg hr hidx hf]
                · rw [dc_eq_ok_none s team p o cache hl hg hr hidx hf] at h
                  simp at h
        · rw [dc_eq_mismatch s team p o cache hl hg] at h
          simp at h
  · intro team p msg h
    cases hl : lookupA s.draft_cache team with
    | none =>
        rw [gs_eq_none s team p o hl] at h
        simp at h
    | some cache =>
        refine ⟨cache, rfl, ?_⟩
        by_cases hg : cache.game_id = p.game_id
        · by_cases hk : dedupeKey3 team "game_start" p.game_id ∈ s.event_dedupe
          · rw [gs_eq_dup s team p o cache hl hg hk] at h
            simp at h
          · cases hidx : cache.row_index with
            | some idx =>
                by_cases hf : o.enabled = true ∧ o.updateGame = false
                · rw [gs_eq_fail_some s team p o cache idx hl hg hk hidx hf]
                  simp [hidx]
                · rw [gs_eq_ok_some s team p o cache idx hl hg hk hidx hf] at h
                  simp at h
            | none =>
                by_cases hf : o.enabled = true ∧ o.appendGame = none
                · rw [gs_eq_fail_none s team p o cache hl hg hk hidx hf]
                · rw [gs_eq_ok_none s team p o cache hl hg hk hidx hf] at h
                  simp at h
        · rw [gs_eq_mismatch s team p o cache hl hg] at h
          simp at h
  · intro team p msg h
    cases hl : lookupA s.draft_cache team with
    | none =>
        rw [gf_eq_none s team p o hl] at h
        simp at h
    | some cache =>
        refine ⟨cache, rfl, ?_⟩
        by_cases hg : cache.game_id = p.game_id
        · by_cases hk : dedupeKey3 team "game_finished" p.game_id ∈ s.event_dedupe
          · rw [gf_eq_dup s team p o cache hl hg hk] at h
            simp at h
          · cases hidx : cache.row_index with
            | some idx =>
                by_cases hf : o.enabled = true ∧ o.updateGame = false
                · rw [gf_eq_fail_some s team p o cache idx hl hg hk hidx hf]
                  simp [hidx]
                · rw [gf_eq_ok_some s team p o cache idx hl hg hk hidx hf] at h
                  simp at h
            | none =>
                by_cases hf : o.enabled = true ∧ o.appendGame = none
                · rw [gf_eq_fail_none s team p o cache hl hg hk hidx hf]
                  simp [hidx]
                · rw [gf_eq_ok_none s team p o cache hl hg hk hidx hf] at h
                  simp at h
        · rw [gf_eq_mismatch s team p o cache hl hg] at h
          simp at h
  · intro team p msg h
    by_cases hk : dedupeKey4 team "stream_ready" p.game_id p.role ∈ s.event_dedupe
    · rw [sr_eq_dup s team p o hk] at h
      simp at h
    · by_cases hf : o.enabled = true ∧ o.appendStream = none
      · rw [sr_eq_fail s team p o hk hf]
      · rw [sr_eq_ok s team p o hk hf] at h
        simp at h

/-- Witness for C1: on a failed write, `champ_select_start` leaves exactly the
counter bump behind. -/
theorem claim_C1_witness :
    (champ_select_start (⟨[], [], []⟩ : ServerState) "KC" sampleChampReq "g1"
        oracleFailAll).1 =
      { (⟨[], [], []⟩ : ServerState) with
          game_counters := bumpCounter [] "KC" "2026-01-07" } :=
  (claim_C1 ⟨[], [], []⟩ oracleFailAll).1 "KC" sampleChampReq "g1"
    "failed to write game row to sheets" (by decide)

/-! ### Dedupe-guarded events (C3) -/

/-- The dedupe key guarding a request, for the dedupe-guarded endpoints. -/
def reqDedupeKey : Request → Option String
  | .gameStart t p => some (dedupeKey3 t "game_start" p.game_id)
  | .gameFinished t p => some (dedupeKey3 t "game_finished" p.game_id)
  | .streamReady t p => some (dedupeKey4 t "stream_ready" p.game_id p.role)
  | _ => none

/-- A dedupe-guarded step that acknowledges has recorded its key. -/
theorem step_ack_key (s : ServerState) (r : Request) (o : SheetsOutcome) (K : String)
    (hk : reqDedupeKey r = some K) (h : (step s r o).2.1 = .ack) :
    K ∈ (step s r o).1.event_dedupe := by
  cases r with
  | heartbeat t => simp [reqDedupeKey] at hk
  | champSelect t p gid => simp [reqDedupeKey] at hk
  | draftComplete t p => simp [reqDedupeKey] at hk
  | gameStart t p =>
      simp only [reqDedupeKey, Option.some.injEq] at hk
      subst hk
      revert h
      simp only [step]
      unfold game_start
      repeat' first | split | dsimp only
      all_goals intro h
      all_goals simp_all
  | gameFinished t p =>
      simp only [reqDedupeKey, Option.some.injEq] at hk
      subst hk
      revert h
      simp only [step]
      unfold game_finished
      repeat' first | split | dsimp only
      all_goals intro h
      all_goals simp_all
  | streamReady t p =>
      simp only [reqDedupeKey, Option.some.injEq] at hk
      subst hk
      revert h
      simp only [step]
      unfold stream_ready
      repeat' first | split | dsimp only
      all_goals intro h
      all_goals simp_all

/-- A dedupe-guarded request whose key is already recorded is rejected — with
409 or (when the session is gone or mismatched) 400 — and performs no write
and no state change. -/
theorem step_dup (s : ServerState) (r : Request) (o : SheetsOutcome) (K : String)
    (hk : reqDedupeKey r = some K) (hmem : K ∈ s.event_dedupe) :
    (step s r o).1 = s ∧ (step s r o).2.2 = [] ∧ (step s r o).2.1 ≠ .ack ∧
    ((step s r o).2.1 = .error 409 "duplicate event" ∨
     (step s r o).2.1 = .error 400 "no active game for team") := by
  cases r with
  | heartbeat t => simp [reqDedupeKey] at hk
  | champSelect t p gid => simp [reqDedupeKey] at hk
  | draftComplete t p => simp [reqDedupeKey] at hk
  | gameStart t p =>
      simp only [reqDedupeKey, Option.some.injEq] at hk
      subst hk
      simp only [step]
      cases hl : lookupA s.draft_cache t with
      | none =>
          rw [gs_eq_none s t p o hl]
          exact ⟨rfl, rfl, by simp, Or.inr rfl⟩
      | some cache =>
          by_cases hg : cache.game_id = p.game_id
          · rw [gs_eq_dup s t p o cache hl hg hmem]
            exact ⟨rfl, rfl, by simp, Or.inl rfl⟩
          · rw [gs_eq_mismatch s t p o cache hl hg]
            exact ⟨rfl, rfl, by simp, Or.inr rfl⟩
  | gameFinished t p =>
      simp only [reqDedupeKey, Option.some.injEq] at hk
      subst hk
      simp only [step]
      cases hl : lookupA s.draft_cache t with
      | none =>
          rw [gf_eq_none s t p o hl]
          exact ⟨rfl, rfl, by simp, Or.inr rfl⟩
      | some cache =>
          by_cases hg : cache.game_id = p.game_id
          · rw [gf_eq_dup s t p o cache hl hg hmem]
            exact ⟨rfl, rfl, by simp, Or.inl rfl⟩
          · rw [gf_eq_mismatch s t p o cache hl hg]
            exact ⟨rfl, rfl, by simp, Or.inr rfl⟩
  | streamReady t p =>
      simp only [reqDedupeKey, Option.some.injEq] at hk
      subst hk
      simp only [step]
      rw [sr_eq_dup s t p o hmem]
      exact ⟨rfl, rfl, by simp, Or.inl rfl⟩

/-- Counterexample to C3 as stated: a successful `game_finished` removes the
session, so the identical retry is rejected with 400 "no active game for
team", not with the 409 the claim requires for every identical resubmission. -/
theorem claim_C3_counterexample :
    (game_finished sampleActive "KC" ⟨"g1", "W"⟩ oracleOkAll).2.1 = .ack ∧
    (game_finished (game_finished sampleActive "KC" ⟨"g1", "W"⟩ oracleOkAll).1
        "KC" ⟨"g1", "W"⟩ oracleOkAll).2.1 =
      .error 400 "no active game for team" :=
  ⟨by decide, by decide⟩

/-- C3 (amended): a dedupe-guarded submission (game_start, game_finished,
stream_ready) succeeds at most once per composite key: once a submission with
key K has been acknowledged, every later submission with the same key — after
any sequence of intervening requests — is rejected without a store write and
without any state change; the rejection is 409 "duplicate event" when the
request reaches the dedupe check (always, for stream_ready) and 400 "no
active game for team" when the session tracker no longer holds a matching
session, as happens to a game_finished retry because the success removed the
session. -/
theorem claim_C3 (s : ServerState) (r : Request) (o : SheetsOutcome) (K : String)
    (hk : reqDedupeKey r = some K) (hsucc : (step s r o).2.1 = .ack)
    (mid : List (Request × SheetsOutcome)) (r2 : Request) (o2 : SheetsOutcome)
    (hk2 : reqDedupeKey r2 = some K) :
    (step (run (step s r o).1 mid) r2 o2).1 = run (step s r o).1 mid ∧
    (step (run (step s r o).1 mid) r2 o2).2.2 = [] ∧
    (step (run (step s r o).1 mid) r2 o2).2.1 ≠ .ack ∧
    ((step (run (step s r o).1 mid) r2 o2).2.1 = .error 409 "duplicate event" ∨
     (step (run (step s r o).1 mid) r2 o2).2.1 =
       .error 400 "no active game for team") := by
  have h1 : K ∈ (step s r o).1.event_dedupe := step_ack_key s r o K hk hsucc
  have h2 : K ∈ (run (step s r o).1 mid).event_dedupe :=
    run_dedupe_super mid (step s r o).1 h1
  exact step_dup _ r2 o2 K hk2 h2

/-- Witness for C3: an immediately repeated identical stream_ready submission
is not acknowledged again. -/
theorem claim_C3_witness :
    (step (run (step sampleActive
        (.streamReady "KC" ⟨"gZ", "MID", "u", "server", none⟩) oracleOkAll).1 [])
      (.streamReady "KC" ⟨"gZ", "MID", "u", "server", none⟩) oracleOkAll).2.1 ≠
      .ack :=
  (claim_C3 sampleActive (.streamReady "KC" ⟨"gZ", "MID", "u", "server", none⟩)
    oracleOkAll (dedupeKey4 "KC" "stream_ready" "gZ" "MID") rfl (by decide) []
    (.streamReady "KC" ⟨"gZ", "MID", "u", "server", none⟩) oracleOkAll rfl).2.2.1

/-! ### Game sequence numbers (C6) -/


/-- An oracle under which no store write fails (vacuously so when the writer
is disabled). -/
def oracleOk (o : SheetsOutcome) : Prop :=
  o.enabled = true →
    (o.appendGameResult ≠ none ∧ o.updateGameResult = true ∧
     o.appendStreamResult ≠ none)

theorem oracleOk_no_append_fail (o : SheetsOutcome) (ho : oracleOk o) :
    ¬ (o.enabled = true ∧ o.appendGame = none) := by
  rintro ⟨he, ha⟩
  have h1 := (ho he).1
  unfold SheetsOutcome.appendGame at ha
  rw [he] at ha
  simp at ha
  exact h1 ha

/-- The game number a response contributes to the (team, date) sequence: a
message-free session response to a champ-select request for that team and
date contributes its game number, everything else contributes nothing. -/
def champContrib (t d : String) (q : Request) (resp : Response) : List Nat :=
  match q with
  | .champSelect t2 p _ =>
      match resp with
      | .session _ (some n) none => if t2 = t ∧ p.date = d then [n] else []
      | _ => []
  | _ => []

/-- The game numbers issued for (t, d) along a trace, read off the responses. -/
def champNumbers (t d : String) :
    List (Request × SheetsOutcome) → List Response → List Nat
  | [], _ => []
  | _ :: _, [] => []
  | (q, _) :: restT, resp :: restR =>
      champContrib t d q resp ++ champNumbers t d restT restR

theorem champNumbers_cons (t d : String) (q : Request) (o : SheetsOutcome)
    (rest : List (Request × SheetsOutcome)) (s : ServerState) :
    champNumbers t d ((q, o) :: rest) (runTrace s ((q, o) :: rest)).2 =
      champContrib t d q (step s q o).2.1 ++
        champNumbers t d rest (runTrace (step s q o).1 rest).2 := rfl

theorem runTrace_cons_fst (q : Request) (o : SheetsOutcome)
    (rest : List (Request × SheetsOutcome)) (s : ServerState) :
    (runTrace s ((q, o) :: rest)).1 = (runTrace (step s q o).1 rest).1 := rfl

/-- A step that neither touches the counters nor contributes a number can be
skipped in the sequence argument. -/
theorem champRun_cons_skip (t d : String) (q : Request) (o : SheetsOutcome)
    (rest : List (Request × SheetsOutcome)) (s : ServerState)
    (hcs : (step s q o).1.game_counters = s.game_counters)
    (hcontrib : champContrib t d q (step s q o).2.1 = [])
    (h : ∃ k, champNumbers t d rest (runTrace (step s q o).1 rest).2 =
          List.range' (counterVal (step s q o).1.game_counters t d + 1) k ∧
        counterVal (runTrace (step s q o).1 rest).1.game_counters t d =
          counterVal (step s q o).1.game_counters t d + k) :
    ∃ k, champNumbers t d ((q, o) :: rest) (runTrace s ((q, o) :: rest)).2 =
          List.range' (counterVal s.game_counters t d + 1) k ∧
        counterVal (runTrace s ((q, o) :: rest)).1.game_counters t d =
          counterVal s.game_counters t d + k := by
  obtain ⟨k, h1, h2⟩ := h
  rw [hcs] at h1 h2
  refine ⟨k, ?_, ?_⟩
  · rw [champNumbers_cons, hcontrib, List.nil_append]
    exact h1
  · rw [runTrace_cons_fst]
    exact h2

/-- Core induction for C6: from any state, under failure-free oracles, the
numbers issued for (t, d) are the next k counter values in order, and the
counter advances by exactly the number of sessions created for (t, d). -/
theorem champRun_spec (t d : String) :
    ∀ (trace : List (Request × SheetsOutcome)) (s : ServerState),
      (∀ q ∈ trace, oracleOk q.2) →
      ∃ k, champNumbers t d trace (runTrace s trace).2 =
             List.range' (counterVal s.game_counters t d + 1) k ∧
           counterVal (runTrace s trace).1.game_counters t d =
             counterVal s.game_counters t d + k := by
  intro trace
  induction trace with
  | nil =>
      intro s _
      exact ⟨0, by simp [runTrace, champNumbers], by simp [runTrace]⟩
  | cons q rest ih =>
      obtain ⟨r, o⟩ := q
      intro s hok
      have hok_head : oracleOk o := hok (r, o) (List.mem_cons_self _ _)
      have hok_rest : ∀ q ∈ rest, oracleOk q.2 :=
        fun q hq => hok q (List.mem_cons_of_mem _ hq)
      cases r with
      | heartbeat t2 =>
          exact champRun_cons_skip t d _ o rest s (by rw [step, hb_state]) rfl
            (ih _ hok_rest)
      | draftComplete t2 p =>
          exact champRun_cons_skip t d _ o rest s (dc_counters s t2 p o) rfl
            (ih _ hok_rest)
      | gameStart t2 p =>
          exact champRun_cons_skip t d _ o rest s (gs_counters s t2 p o) rfl
            (ih _ hok_rest)
      | gameFinished t2 p =>
          exact champRun_cons_skip t d _ o rest s (gf_counters s t2 p o) rfl
            (ih _ hok_rest)
      | streamReady t2 p =>
          exact champRun_cons_skip t d _ o rest s (sr_counters s t2 p o) rfl
            (ih _ hok_rest)
      | champSelect t2 p gid =>
          cases hl : lookupA s.draft_cache t2 with
          | some cache =>
              have hstep : step s (.champSelect t2 p gid) o =
                  (s, .session (some cache.game_id) (some cache.game_number)
                    (some "game already active"), []) :=
                css_eq_active s t2 p gid o cache hl
              exact champRun_cons_skip t d _ o rest s (by rw [hstep])
                (by rw [hstep]; rfl) (ih _ hok_rest)
          | none =>
              have hf : ¬ (o.enabled = true ∧ o.appendGame = none) :=
                oracleOk_no_append_fail o hok_head
              have hstep := css_eq_ok s t2 p gid o hl hf
              by_cases hm : t2 = t ∧ p.date = d
              · obtain ⟨ht2, hd⟩ := hm
                subst ht2
                subst hd
                obtain ⟨k, h1, h2⟩ := ih (step s (.champSelect t2 p gid) o).1 hok_rest
                simp only [step] at h1 h2
                simp only [hstep] at h1 h2
                rw [counterVal_bumpCounter_self] at h1 h2
                refine ⟨k + 1, ?_, ?_⟩
                · rw [champNumbers_cons]
                  simp only [step]
                  simp only [hstep]
                  rw [show champContrib t2 p.date (Request.champSelect t2 p gid)
                      (Response.session (some gid)
                        (some (counterVal s.game_counters t2 p.date + 1)) none) =
                      if t2 = t2 ∧ p.date = p.date then
                        [counterVal s.game_counters t2 p.date + 1] else [] from rfl]
                  rw [if_pos ⟨rfl, rfl⟩, h1, List.range'_succ]
                  rfl
                · rw [runTrace_cons_fst]
                  simp only [step]
                  simp only [hstep]
                  rw [h2]
                  omega
              · obtain ⟨k, h1, h2⟩ := ih (step s (.champSelect t2 p gid) o).1 hok_rest
                simp only [step] at h1 h2
                simp only [hstep] at h1 h2
                have hcv := counterVal_bumpCounter_ne s.game_counters t2 p.date t d
                  (fun hh => hm ⟨hh.1.symm, hh.2.symm⟩)
                rw [hcv] at h1 h2
                refine ⟨k, ?_, ?_⟩
                · rw [champNumbers_cons]
                  simp only [step]
                  simp only [hstep]
                  rw [show champContrib t d (Request.champSelect t2 p gid)
                      (Response.session (some gid)
                        (some (counterVal s.game_counters t2 p.date + 1)) none) =
                      if t2 = t ∧ p.date = d then
                        [counterVal s.game_counters t2 p.date + 1] else [] from rfl]
                  rw [if_neg hm, List.nil_append]
                  exact h1
                · rw [runTrace_cons_fst]
                  simp only [step]
                  simp only [hstep]
                  exact h2



/-- A trace whose first champ-select write fails with a 502 and whose second
succeeds: only the second call creates a session. -/
def failTrace : List (Request × SheetsOutcome) :=
  [(.champSelect "KC" sampleChampReq "g1", oracleFailAll),
   (.champSelect "KC" sampleChampReq "g2", oracleOkAll)]

/-- Counterexample to C6 as stated: a champ-select whose store write fails
returns 502 and creates no session, yet has already consumed a sequence
number, so the numbers produced by the session-creating calls for (team,
date) are [2] — not the sequence 1, 2, 3, ... starting at 1 that the claim
requires. -/
theorem claim_C6_counterexample :
    (runTrace (⟨[], [], []⟩ : ServerState) failTrace).2 =
      [.error 502 "failed to write game row to sheets",
       .session (some "g2") (some 2) none] ∧
    champNumbers "KC" "2026-01-07" failTrace
      (runTrace (⟨[], [], []⟩ : ServerState) failTrace).2 = [2] ∧
    champNumbers "KC" "2026-01-07" failTrace
        (runTrace (⟨[], [], []⟩ : ServerState) failTrace).2 ≠
      List.range' 1 (champNumbers "KC" "2026-01-07" failTrace
        (runTrace (⟨[], [], []⟩ : ServerState) failTrace).2).length :=
  ⟨by decide, by decide, by decide⟩

/-- C6 (amended): starting from a state whose (t, d) counter is fresh, the
game numbers produced by successive session-creating champ-select calls for
team t and date d form exactly the sequence 1, 2, 3, ... provided no store
write fails along the trace — a champ-select whose write fails consumes a
number without creating a session, after which the created sessions' numbers
skip it.  The counter is bumped by each creating call and never reclaimed,
and — unconditionally — any step that is not a champ-select for (t, d)
leaves the (t, d) counter unchanged. -/
theorem claim_C6 (s : ServerState) (t d : String)
    (trace : List (Request × SheetsOutcome))
    (hok : ∀ q ∈ trace, oracleOk q.2)
    (h0 : counterVal s.game_counters t d = 0) :
    champNumbers t d trace (runTrace s trace).2 =
      List.range' 1 (champNumbers t d trace (runTrace s trace).2).length ∧
    (∀ (s2 : ServerState) (r : Request) (o : SheetsOutcome),
      (∀ t2 p gid, r = Request.champSelect t2 p gid → ¬ (t2 = t ∧ p.date = d)) →
      counterVal (step s2 r o).1.game_counters t d =
        counterVal s2.game_counters t d) := by
  constructor
  · obtain ⟨k, h1, h2⟩ := champRun_spec t d trace s hok
    rw [h0] at h1
    rw [h1]
    simp
  · intro s2 r o h
    cases r with
    | heartbeat t2 =>
        simp only [step]
        rw [hb_state]
    | draftComplete t2 p =>
        simp only [step]
        rw [dc_counters]
    | gameStart t2 p =>
        simp only [step]
        rw [gs_counters]
    | gameFinished t2 p =>
        simp only [step]
        rw [gf_counters]
    | streamReady t2 p =>
        simp only [step]
        rw [sr_counters]
    | champSelect t2 p gid =>
        have hne : ¬ (t2 = t ∧ p.date = d) := h t2 p gid rfl
        simp only [step]
        cases hl : lookupA s2.draft_cache t2 with
        | some cache => rw [css_eq_active s2 t2 p gid o cache hl]
        | none =>
            by_cases hf : o.enabled = true ∧ o.appendGame = none
            · rw [css_eq_fail s2 t2 p gid o hl hf]
              exact counterVal_bumpCounter_ne _ _ _ _ _
                (fun hh => hne ⟨hh.1.symm, hh.2.symm⟩)
            · rw [css_eq_ok s2 t2 p gid o hl hf]
              exact counterVal_bumpCounter_ne _ _ _ _ _
                (fun hh => hne ⟨hh.1.symm, hh.2.symm⟩)

instance oracleOk_decidable (o : SheetsOutcome) : Decidable (oracleOk o) :=
  inferInstanceAs (Decidable (o.enabled = true →
    (o.appendGameResult ≠ none ∧ o.updateGameResult = true ∧
     o.appendStreamResult ≠ none)))

/-- A concrete trace: two games created for KC on the same date, with a
game_finished in between. -/
def sampleTrace : List (Request × SheetsOutcome) :=
  [(.champSelect "KC" sampleChampReq "g1", oracleOkAll),
   (.gameFinished "KC" ⟨"g1", "W"⟩, oracleOkAll),
   (.champSelect "KC" sampleChampReq "g2", oracleOkAll)]

/-- Witness for C6 on the concrete trace (numbers issued: [1, 2]). -/
theorem claim_C6_witness :
    champNumbers "KC" "2026-01-07" sampleTrace
        (runTrace ⟨[], [], []⟩ sampleTrace).2 =
      List.range' 1 (champNumbers "KC" "2026-01-07" sampleTrace
        (runTrace ⟨[], [], []⟩ sampleTrace).2).length :=
  (claim_C6 ⟨[], [], []⟩ "KC" "2026-01-07" sampleTrace (by decide) (by decide)).1


end Ionia
